import Mathlib

/-!
# Verification of the OmnisPartner alert-manager engine

Shallow embedding of the alert ingestion / dedup / forbid-matching /
dispatch engine from `app/modules/alertmanager`, together with proofs
settling the frozen claims about it.

Python strings are modelled as Lean `String`; to keep every definition
kernel-computable, character-level operations (split, strip, upper/lower,
substring search) are implemented structurally on `List Char`.  Python
`datetime` timestamps are modelled as `Nat` (seconds), except where the
digit layout of `strftime` matters (`PyDateTime`).  Python `Set[str]`
values coming from metadata are modelled as duplicate-free `List String`.
-/

set_option autoImplicit false

namespace OmnisPartner

/-! ## String helpers (Python semantics, structural recursion) -/

/-- Python `str.split(sep)` for a one-character separator, on `List Char`:
`"".split` gives `[""]`, adjacent separators give empty fields. -/
def pySplitCh (sep : Char) : List Char → List (List Char)
  | [] => [[]]
  | c :: rest =>
    let r := pySplitCh sep rest
    if c = sep then [] :: r
    else
      match r with
      | h :: t => (c :: h) :: t
      | [] => [[c]]

/-- Python `str.split(sep)` for a one-character separator. -/
def pySplit (s : String) (sep : Char) : List String :=
  (pySplitCh sep s.toList).map String.mk

/-- ASCII upper-casing of one character (Python `str.upper` on the
ASCII subset actually used by the alert codes). -/
def upperChar (c : Char) : Char :=
  if 'a' ≤ c ∧ c ≤ 'z' then Char.ofNat (c.toNat - 32) else c

/-- ASCII lower-casing of one character. -/
def lowerChar (c : Char) : Char :=
  if 'A' ≤ c ∧ c ≤ 'Z' then Char.ofNat (c.toNat + 32) else c

/-- Python `str.upper()`. -/
def pyUpper (s : String) : String := String.mk (s.toList.map upperChar)

/-- Python `str.lower()`. -/
def pyLower (s : String) : String := String.mk (s.toList.map lowerChar)

/-- Python `str.strip()` (whitespace trimming at both ends). -/
def pyStrip (s : String) : String :=
  String.mk (((s.toList.dropWhile Char.isWhitespace).reverse.dropWhile
    Char.isWhitespace).reverse)

/-- Substring (contiguous sublist) test on character lists. -/
def isInfixB (pat : List Char) : List Char → Bool
  | [] => pat.isEmpty
  | c :: rest => pat.isPrefixOf (c :: rest) || isInfixB pat rest

/-- Python `pre in s` (substring containment). -/
def pyContainsStr (s pre : String) : Bool := isInfixB pre.toList s.toList

/-- Python `s.startswith(pre)`. -/
def pyStartsWith (s pre : String) : Bool := pre.toList.isPrefixOf s.toList

/-- Index of the first occurrence of `pat` inside `l`
(Python `str.index`, `none` when absent). -/
def firstInfixIdx (pat : List Char) : List Char → Option Nat
  | [] => if pat = [] then some 0 else none
  | c :: rest =>
    if pat.isPrefixOf (c :: rest) then some 0
    else (firstInfixIdx pat rest).map (· + 1)

/-! ## Constants (`util/constants.py`) -/

def FORBID_YES : String := "1"
def EVENT_TYPE_CREATE : String := "1"
def EVENT_TYPE_RECOVER : String := "0"
def IS_RECOVER_YES : String := "1"
def IS_RECOVER_NO : String := "0"
def CONFIRM_YES : String := "1"
def CAN_NOT_USE : String := "1"
def MSG_SEND_FORBID_NOT_SHOWANDSEND : String := "2"
def ALERTCODE_DEFAULT_BUSI : String := "BUSI000"

/-! ## Enumerations (`util/enums.py`) -/

/-- `ChannelType` enum. -/
inductive ChannelType where
  | WEIXIN | QQ | DINGDING | MAIL | SHORTMSG | ALIYUN_PHONE | OTHERS
  deriving Repr, DecidableEq

/-- The `.value` string of a `ChannelType` member. -/
def ChannelType.value : ChannelType → String
  | .WEIXIN => "1"
  | .QQ => "2"
  | .DINGDING => "3"
  | .MAIL => "4"
  | .SHORTMSG => "5"
  | .ALIYUN_PHONE => "aliyun_phone"
  | .OTHERS => "9"

/-- The Python enum member name (used in provider-failure comments). -/
def ChannelType.pyName : ChannelType → String
  | .WEIXIN => "WEIXIN"
  | .QQ => "QQ"
  | .DINGDING => "DINGDING"
  | .MAIL => "MAIL"
  | .SHORTMSG => "SHORTMSG"
  | .ALIYUN_PHONE => "ALIYUN_PHONE"
  | .OTHERS => "OTHERS"

/-- `ChannelType(value)` conversion; `none` models the `ValueError`
raised on an unknown value. -/
def parseChannelType (s : String) : Option ChannelType :=
  if s = "1" then some .WEIXIN
  else if s = "2" then some .QQ
  else if s = "3" then some .DINGDING
  else if s = "4" then some .MAIL
  else if s = "5" then some .SHORTMSG
  else if s = "aliyun_phone" then some .ALIYUN_PHONE
  else if s = "9" then some .OTHERS
  else none

/-- `AlertSourceType` enum. -/
inductive AlertSourceType where
  | ZABBIX | PINPOINT | ELK | OMNIS | PROMETHEUS | BUSI | OTHERS | ALL
  deriving Repr, DecidableEq

/-- The `.value` string of an `AlertSourceType` member. -/
def AlertSourceType.value : AlertSourceType → String
  | .ZABBIX => "0"
  | .PINPOINT => "1"
  | .ELK => "2"
  | .OMNIS => "3"
  | .PROMETHEUS => "4"
  | .BUSI => "8"
  | .OTHERS => "9"
  | .ALL => "-1"

/-- `AlertSourceType(value)` conversion; `none` models `ValueError`. -/
def parseAlertSourceType (s : String) : Option AlertSourceType :=
  if s = "0" then some .ZABBIX
  else if s = "1" then some .PINPOINT
  else if s = "2" then some .ELK
  else if s = "3" then some .OMNIS
  else if s = "4" then some .PROMETHEUS
  else if s = "8" then some .BUSI
  else if s = "9" then some .OTHERS
  else if s = "-1" then some .ALL
  else none

/-! ## Domain model (`domain/*.py`)

Fields consumed only by the message formatter (`msgJsoninfo`, `others`,
`alertSourceType`, `host_business_name`, …) are omitted: the formatter is
a parameter of the dispatcher embedding. -/

/-- `AlertItem` (only the field the parsers read). -/
structure AlertItem where
  alertitem_level : String
  deriving Repr, DecidableEq

/-- `MsgChannel` (`domain/msg_channel.py`), fields read by the engine. -/
structure MsgChannel where
  channel_id : String
  channel_name : String := ""
  channel_type : String
  send_rate : Option Int := none
  is_invalid : String := "0"
  is_del : String := "0"
  mapper_monitor_group : Option String := none
  msg_format : Option String := none
  channelType : Option ChannelType := none
  deriving Repr, DecidableEq

/-- `MsgSendRules` (`domain/msg_send_rules.py`). -/
structure MsgSendRules where
  msg_send_rule_id : String := ""
  alertitem_code : String := ""
  repeat_send_interval : Int := 0
  repeat_send_interval_maxtime : Int := 0
  same_alert_resend_mintime : Int := 0
  is_forbid : String := "0"
  recover_msg_notsend : Int := 0
  alertitem_notshow : Int := 0
  msg_fmt : Option String := none
  msgChannels : List MsgChannel := []
  deriving Repr, DecidableEq

/-- `MsgSendForbidObj` (`domain/msg_send_forbid_obj.py`); the begin/end
datetimes are modelled as optional timestamps so the falsy-guard in
`_check_forbid_rules` is representable. -/
structure MsgSendForbidObj where
  begTime : Option Nat
  endTime : Option Nat
  forbidType : String
  ips : List String := []
  hosts : List String := []
  channels : List String := []
  alertCodes : List String := []
  projects : List String := []
  deriving Repr, DecidableEq

/-- `AlertItemRecord` (`domain/alert_item_record.py`), formatter-only
fields omitted; datetimes as `Nat` timestamps. -/
structure AlertItemRecord where
  alertitem_record_id : String
  event_id : String
  alertitem_code : String
  project : String
  project_group : String
  alert_source : String
  event_type : String
  hostip : String
  hostname : String
  alert_level : String
  add_time : Nat
  alert_msg_org : String := ""
  alert_msg : String := ""
  record_statu : String := "0"
  comment : String := ""
  alertitem_notshow : Int := 0
  alert_time : Option Nat := none
  recover_time : Option Nat := none
  is_recover : String := "0"
  is_confirm : String := "0"
  currentChannelType : Option String := none
  currentIsSendMsg : Bool := true
  forbidChannels : Option (List String) := none
  forbidRuleType : Option String := none
  deriving Repr, DecidableEq

/-! ## DedupCache (`cache/engine.py`) -/

/-- `AlertInfoCache.MAX_CACHE_SIZE`. -/
def MAX_CACHE_SIZE : Nat := 20000

/-- `AlertInfoCache._cache_key`. -/
def cacheKey (event_id project : String) : String := event_id ++ "#" ++ project

/-- The `_tmp_messages` `OrderedDict[str, bool]`, oldest entry first. -/
abbrev TmpMessages := List (String × Bool)

/-- `add_tmp_message`: assignment plus `move_to_end` is remove-existing
then append; the `while len > MAX` pop-oldest loop is `drop` down to
capacity. -/
def addTmpMessage (tmp : TmpMessages) (event_id project : String)
    (is_recover : Bool) : TmpMessages :=
  let key := cacheKey event_id project
  let updated := tmp.filter (fun p => p.1 ≠ key) ++ [(key, is_recover)]
  updated.drop (updated.length - MAX_CACHE_SIZE)

/-- `check_tmp_message`: `OrderedDict.get`. -/
def checkTmpMessage (tmp : TmpMessages) (event_id project : String) :
    Option Bool :=
  (tmp.find? (fun p => p.1 = cacheKey event_id project)).map (·.2)

/-! ## In-memory repository (`repositories/memory.py`)

The `Dict[str, AlertItemRecord]` keyed by `alertitem_record_id` is
modelled as its value list in insertion order; record ids are unique in
every reachable state, so the map-update below matches the dict update. -/

abbrev RepoRecords := List AlertItemRecord

/-- `save_record`: `records[record.alertitem_record_id] = record`. -/
def saveRecord (records : RepoRecords) (record : AlertItemRecord) :
    RepoRecords :=
  if records.any (fun s => s.alertitem_record_id = record.alertitem_record_id)
  then records.map (fun s =>
    if s.alertitem_record_id = record.alertitem_record_id then record else s)
  else records ++ [record]

/-- `mark_recovered`: mutate the stored record when present, returning
the affected-row count. -/
def markRecovered (records : RepoRecords) (record : AlertItemRecord) :
    RepoRecords × Nat :=
  if records.any (fun s => s.alertitem_record_id = record.alertitem_record_id)
  then
    (records.map (fun s =>
      if s.alertitem_record_id = record.alertitem_record_id then
        { s with is_recover := IS_RECOVER_YES,
                 recover_time := record.recover_time,
                 event_type := EVENT_TYPE_RECOVER }
      else s), 1)
  else (records, 0)

/-- One row of `query_repeat_candidates`. -/
structure RepeatRow where
  hostip : String
  alertitem_code : String
  addtime : Nat
  project : String
  deriving Repr, DecidableEq

/-- Grouping key of `query_repeat_candidates`. -/
def repeatKey (r : AlertItemRecord) : String × String × String :=
  (r.hostip, r.alertitem_code, r.project)

/-- Keys in order of first occurrence (the `defaultdict` iteration
order of the grouping loop). -/
def firstKeys : List (String × String × String) → List (String × String × String)
  | [] => []
  | k :: rest => k :: firstKeys (rest.filter (fun x => x ≠ k))
termination_by l => l.length
decreasing_by
  exact Nat.lt_succ_of_le (List.length_filter_le _ _)

/-- Stable insertion into a list sorted by ascending `add_time`. -/
def insertByAddTime (r : AlertItemRecord) : List AlertItemRecord → List AlertItemRecord
  | [] => [r]
  | x :: xs =>
    if r.add_time ≤ x.add_time then r :: x :: xs
    else x :: insertByAddTime r xs

/-- Python `sorted(records, key=lambda r: r.add_time)` (stable). -/
def sortByAddTime (l : List AlertItemRecord) : List AlertItemRecord :=
  l.foldr insertByAddTime []

/-- `query_repeat_candidates`: open (create-type, unrecovered) records,
grouped by (hostip, alert code, project); every group of size > 1
contributes all but its latest-added record. -/
def queryRepeatCandidates (records : RepoRecords) : List RepeatRow :=
  let openRecords := records.filter (fun r =>
    r.event_type = EVENT_TYPE_CREATE ∧ r.is_recover = IS_RECOVER_NO)
  let keys := firstKeys (openRecords.map repeatKey)
  keys.flatMap (fun k =>
    let group := openRecords.filter (fun r => repeatKey r = k)
    if group.length ≤ 1 then []
    else (sortByAddTime group).dropLast.map (fun rec =>
      { hostip := rec.hostip, alertitem_code := rec.alertitem_code,
        addtime := rec.add_time, project := rec.project }))

/-- `confirm_repeat`: set `is_confirm` on every record matching the
(hostip, alert code, project, add time) quadruple. -/
def confirmRepeat (records : RepoRecords) (hostip alert_code : String)
    (add_time : Nat) (project : String) : RepoRecords :=
  records.map (fun r =>
    if r.hostip = hostip ∧ r.alertitem_code = alert_code ∧
        r.project = project ∧ r.add_time = add_time
    then { r with is_confirm := CONFIRM_YES } else r)

/-- One tick of `_repeat_loop`: query once, then confirm every row. -/
def repeatConfirmPass (records : RepoRecords) : RepoRecords :=
  (queryRepeatCandidates records).foldl
    (fun recs row => confirmRepeat recs row.hostip row.alertitem_code
      row.addtime row.project) records

/-! ## ForbidMatcher (`service/core.py`, `_check_forbid_rules` /
`_match_forbid`) -/

/-- `_match_forbid`: empty set never matches, `{"NULL"}` matches
everything, otherwise exact membership. -/
def matchForbid (values : List String) (candidate : String) : Bool :=
  if values.isEmpty then false
  else if values = ["NULL"] then true
  else values.contains candidate

/-- Host-dimension test: some host entry is a case-insensitive
substring of the record's hostname. -/
def hostMatches (hosts : List String) (hostname : String) : Bool :=
  hosts.any (fun h => pyContainsStr (pyLower hostname) (pyLower h))

/-- One iteration of the `_check_forbid_rules` loop: either the rule is
skipped (`continue`) or it overwrites the record's forbid fields. -/
def forbidStep (t : Nat) (rec : AlertItemRecord) (forbid : MsgSendForbidObj) :
    AlertItemRecord :=
  match forbid.begTime, forbid.endTime with
  | some beg, some en =>
    if beg > t ∨ en < t then rec
    else if ¬ matchForbid forbid.ips rec.hostip then rec
    else if ¬ matchForbid forbid.alertCodes rec.alertitem_code then rec
    else if ¬ matchForbid forbid.projects rec.project then rec
    else if ¬ forbid.hosts.isEmpty ∧ ¬ hostMatches forbid.hosts rec.hostname then rec
    else { rec with forbidRuleType := some forbid.forbidType,
                    forbidChannels := some forbid.channels }
  | _, _ => rec

/-- `_check_forbid_rules`: fold the loop body over the rules in load
order (the source has no break, so later matches overwrite earlier
ones). -/
def checkForbidRules (forbids : List MsgSendForbidObj) (t : Nat)
    (r : AlertItemRecord) : AlertItemRecord :=
  forbids.foldl (forbidStep t) r

/-- Whether one forbid rule applies to a record at time `t` (the
conjunction of all the `continue` guards in `_check_forbid_rules`). -/
def forbidApplies (t : Nat) (r : AlertItemRecord) (forbid : MsgSendForbidObj) :
    Bool :=
  match forbid.begTime, forbid.endTime with
  | some beg, some en =>
    ¬ (beg > t ∨ en < t) ∧ matchForbid forbid.ips r.hostip ∧
      matchForbid forbid.alertCodes r.alertitem_code ∧
      matchForbid forbid.projects r.project ∧
      (forbid.hosts.isEmpty ∨ hostMatches forbid.hosts r.hostname)
  | _, _ => false

/-! ## Rate limiter (`provider/base.py`, `_throttle`)

The per-channel deque of `_SendRecord(timestamp, count=1)` is modelled
as the list of admitted timestamps (seconds); the summed counts equal
the list length. -/

abbrev RateWindows := String → List Int

/-- `_throttle`: prune entries older than the 60-second cutoff from the
front, raise when the remaining count reaches the limit, otherwise
admit the send.  Returns the updated windows together with the outcome
(`Except.error` models the raised `MsgSendException`). -/
def throttle (st : RateWindows) (key : String) (maxPerMinute : Option Int)
    (now : Int) : RateWindows × Except String Unit :=
  match maxPerMinute with
  | none => (st, .ok ())
  | some m =>
    if m ≤ 0 then (st, .ok ())
    else
      let w := (st key).dropWhile (fun ts => ts < now - 60)
      let count : Int := w.length
      if count ≥ m then
        ((fun k => if k = key then w else st k),
         .error (key ++ " exceeded msgs/min."))
      else
        ((fun k => if k = key then w ++ [now] else st k), .ok ())

/-! ## Event-id generation (`util/utils.py`, `generate_event_id`)

`datetime` split into its calendar components so the digit layout of
`strftime("%Y%m%d%H%M%S%f")` can be stated. -/

/-- A Python `datetime` value, by components. -/
structure PyDateTime where
  year : Nat
  month : Nat
  day : Nat
  hour : Nat
  minute : Nat
  second : Nat
  micro : Nat
  deriving Repr, DecidableEq

/-- Fixed-width decimal digits of `n` (most significant first), as
produced by a zero-padded `strftime` field. -/
def padDigits (k n : Nat) : List Nat :=
  match k with
  | 0 => []
  | k + 1 => padDigits k (n / 10) ++ [n % 10]

/-- Render a digit list as a string. -/
def digitsToString (ds : List Nat) : String :=
  String.mk (ds.map (fun d => Char.ofNat (48 + d)))

/-- Value of a digit list read most-significant-first. -/
def digitsVal (ds : List Nat) : Nat :=
  ds.foldl (fun a d => 10 * a + d) 0

/-- Decode a decimal digit string back to its numeric value. -/
def decodeDigitString (s : String) : Nat :=
  s.toList.foldl (fun a c => 10 * a + (c.toNat - 48)) 0

/-- `generate_event_id`: `now().strftime("%Y%m%d%H%M%S%f")`. -/
def generateEventId (t : PyDateTime) : String :=
  digitsToString (padDigits 4 t.year ++ padDigits 2 t.month ++
    padDigits 2 t.day ++ padDigits 2 t.hour ++ padDigits 2 t.minute ++
    padDigits 2 t.second ++ padDigits 6 t.micro)

/-- Numeric timestamp of a `PyDateTime` in event-id digit order;
strictly monotone in the (valid-range) component order. -/
def dtVal (t : PyDateTime) : Nat :=
  (((((t.year * 100 + t.month) * 100 + t.day) * 100 + t.hour) * 100 +
      t.minute) * 100 + t.second) * 1000000 + t.micro

/-- Component bounds guaranteed by the `datetime` type (each field fits
its zero-padded `strftime` width). -/
def ValidDT (t : PyDateTime) : Prop :=
  t.year < 10000 ∧ t.month < 100 ∧ t.day < 100 ∧ t.hour < 100 ∧
    t.minute < 100 ∧ t.second < 100 ∧ t.micro < 1000000

instance (t : PyDateTime) : Decidable (ValidDT t) := by
  unfold ValidDT; infer_instance

/-! ## Zabbix-style parser (`service/core.py`, `_gen_record_from_zabbix`)

Parameters replacing collaborator calls: `pdt` is `parse_dot_datetime`
(`Except.error` models the `ValueError` of `strptime`, `none` an empty
field), `getAlertitem` the metadata-cache lookup, `rid` the fresh
`uuid4`, `t` the current time as both components and timestamp. -/

/-- The Chinese `MsgSendException` messages of the zabbix parser. -/
def MSG_EMPTY : String := "消息为空"
def MSG_BAD_FORMAT : String := "错误的消息格式"
def MSG_BAD_GROUP (msg : String) : String :=
  "错误格式的项目分组名称，需要描述为[TJH]xxxxxx类似" ++ msg
def MSG_BAD_ALERTMSG : String := "错误的消息格式，需要描述为[JVM001]类似 预警编码开始"

/-- `msg.startswith("NOTE:") and "disabled." in msg`. -/
def isDisableMsg (msg : String) : Bool :=
  pyStartsWith msg "NOTE:" && pyContainsStr msg "disabled."

/-- The substring strictly between the leading `[` and the first `]`
(`group[:group.index("]") + 1][1:-1]` under the bracket guards). -/
def betweenBrackets (s : String) : String :=
  String.mk ((s.toList.drop 1).takeWhile (fun c => c ≠ ']'))

/-- `s.startswith("[") and "]" in s`. -/
def bracketFormatOk (s : String) : Bool :=
  pyStartsWith s "[" && s.toList.contains ']'

/-- `_gen_record_from_zabbix`. -/
def genRecordFromZabbix (pdt : String → Except String (Option Nat))
    (getAlertitem : String → Option AlertItem)
    (forbids : List MsgSendForbidObj) (rid : String) (t : Nat)
    (msg : String) : Except String AlertItemRecord :=
  if msg = "" then .error MSG_EMPTY
  else
    let disableMsg := isDisableMsg msg
    let parts := pySplit msg '|'
    if parts.length < 9 then .error MSG_BAD_FORMAT
    else
      let eventId0 := pyStrip (parts.getD 0 "")
      let eidRes : Except String String :=
        if disableMsg then
          match firstInfixIdx "disabled.".toList eventId0.toList with
          | some i =>
            .ok (pyStrip (String.mk (eventId0.toList.drop (i + 9))))
          | none => .error "substring not found"
        else .ok eventId0
      match eidRes with
      | .error e => .error e
      | .ok eventId =>
        let hostname := parts.getD 1 ""
        let hostip := parts.getD 2 ""
        match pdt (parts.getD 4 "") with
        | .error e => .error e
        | .ok alertTime =>
          match pdt (parts.getD 5 "") with
          | .error e => .error e
          | .ok recoverTime =>
            let eventType := parts.getD 6 ""
            let projectGroup := parts.getD 7 ""
            let group := parts.getD 7 ""
            if ¬ bracketFormatOk group then .error (MSG_BAD_GROUP msg)
            else
              let project := betweenBrackets group
              let alertMsg := parts.getD 8 ""
              if ¬ bracketFormatOk alertMsg then .error MSG_BAD_ALERTMSG
              else
                let alertCode := betweenBrackets alertMsg
                let alertItem := getAlertitem (pyUpper alertCode)
                let level := match alertItem with
                  | some ai => ai.alertitem_level
                  | none => "-1"
                let record : AlertItemRecord :=
                  { alertitem_record_id := rid
                    event_id := eventId
                    alertitem_code := pyUpper alertCode
                    project := pyUpper project
                    project_group := projectGroup
                    alert_source := AlertSourceType.ZABBIX.value
                    event_type := eventType
                    hostip := hostip
                    hostname := hostname
                    alert_level := level
                    add_time := t
                    alert_msg_org := msg
                    alert_msg := alertMsg
                    alert_time := alertTime
                    recover_time := recoverTime
                    is_recover :=
                      if recoverTime.isSome ∨ disableMsg
                      then IS_RECOVER_YES else IS_RECOVER_NO }
                .ok (checkForbidRules forbids t record)

/-! ## Generic JSON parser (`service/core.py`, `_gen_record_from_json`)

`json.loads` is external; the embedding takes the decoded payload (an
object, i.e. a key/value list) together with the raw string that lands
in `alert_msg_org`. -/

/-- A decoded JSON value. -/
inductive JVal where
  | s (v : String)
  | n (v : Int)
  | b (v : Bool)
  | null
  | arr (vs : List JVal)
  | obj (fields : List (String × JVal))
  deriving Repr

/-- Python `dict.get` on a decoded object. -/
def jget (payload : List (String × JVal)) (k : String) : Option JVal :=
  (payload.find? (fun p => p.1 = k)).map (·.2)

/-- Python truthiness of a JSON value. -/
def jFalsy : JVal → Bool
  | .s v => v = ""
  | .n v => v = 0
  | .b v => ¬ v
  | .null => true
  | .arr vs => vs.isEmpty
  | .obj fs => fs.isEmpty

/-- Python `str(...)` of a JSON value (only the string case is ever
exercised by the engine's metadata lookups). -/
def pyStr : JVal → String
  | .s v => v
  | .n v => toString v
  | .b true => "True"
  | .b false => "False"
  | .null => "None"
  | .arr _ => "<list>"
  | .obj _ => "<dict>"

/-- `_parse_pinpoint`: positional decode of the fixed 6-field
pipe-delimited pinpoint payload. -/
def parsePinpoint (msgStr : String) : List (String × JVal) :=
  let fields := ["appid", "checkername", "notes", "time", "threshold", "message"]
  let segments := pySplit msgStr '|'
  (fields.enum).map (fun fi => (fi.2, JVal.s (segments.getD fi.1 "")))

/-- `_gen_record_from_json` after `json.loads`; `defaultProject` is
`settings.alertmanager_project`, `tNow` the current time. -/
def genRecordFromJson (payload : List (String × JVal))
    (sourceType : AlertSourceType) (defaultProject : String)
    (getAlertitem : String → Option AlertItem)
    (forbids : List MsgSendForbidObj) (rid : String) (tNow : PyDateTime)
    (jsonMsg : String) : Except String AlertItemRecord :=
  let alertCode := pyUpper (pyStr ((jget payload "alertcode").getD
    (.s ALERTCODE_DEFAULT_BUSI)))
  let ast := (jget payload "alertsourcetype").getD (.s sourceType.value)
  if jFalsy ast then .error "Json字符串必须描述 alertsourcetype 属性"
  else
    let srcTypeRes : Except String AlertSourceType :=
      match ast with
      | .s v =>
        match parseAlertSourceType v with
        | some st => .ok st
        | none => .error (v ++ " is not a valid AlertSourceType")
      | _ => .error "is not a valid AlertSourceType"
    match srcTypeRes with
    | .error e => .error e
    | .ok srcType =>
      let msgMap : List (String × JVal) :=
        match jget payload "msg" with
        | some (.s str) =>
          if srcType = .PINPOINT then parsePinpoint str
          else [("message", .s str)]
        | some (.obj m) => m
        | some other => [("message", other)]
        | none => [("message", .null)]
      match getAlertitem alertCode with
      | none => .error (alertCode ++ " 编码未在知识库找到，请传入正确的消息编码")
      | some alertItem =>
        let project := pyUpper (pyStr ((jget payload "project").getD
          (.s defaultProject)))
        let hostname :=
          match jget payload "hostname" with
          | some v => pyStr v
          | none => "[" ++ project ++ "]-0.0.0.0-[unknown]"
        let record : AlertItemRecord :=
          { alertitem_record_id := rid
            event_id := generateEventId tNow
            alertitem_code := alertCode
            project := project
            project_group := "[" ++ project ++ "]"
            alert_source := srcType.value
            event_type := EVENT_TYPE_CREATE
            hostip := pyStr ((jget payload "hostip").getD (.s "0.0.0.0"))
            hostname := hostname
            alert_level := alertItem.alertitem_level
            add_time := dtVal tNow
            alert_msg_org := jsonMsg
            alert_msg :=
              match jget msgMap "message" with
              | some v => pyStr v
              | none => "" }
        .ok (checkForbidRules forbids (dtVal tNow) record)

/-! ## Dispatcher (`service/core.py`, `_dispatch_channels` /
`_is_channel_forbidden` / `_push_alert_msg_native`)

The message formatter and the providers are external collaborators of
the decision pipeline and enter as parameters: `fmt` is
`AlertMsgFormatter.format`, `outcome` tells for each channel whether
`provider.send` succeeds, raises `MsgSendException`, or raises an
unexpected exception. -/

/-- Result of one `provider.send` call. -/
inductive ProviderOutcome where
  | ok
  | sendErr
  | otherErr
  deriving Repr, DecidableEq

/-- The `{status, message}` response envelope
(`builder_success` / `builder_error`). -/
inductive Resp where
  | success (msg : String)
  | error (msg : String)
  deriving Repr, DecidableEq

/-- `_is_channel_forbidden`: check the record's temporary forbid set,
the channel validity flags and the monitor-group filter; skipping
mutates the record's status/comment. -/
def isChannelForbidden (r : AlertItemRecord) (c : MsgChannel) :
    Bool × AlertItemRecord :=
  if (match r.forbidChannels with
      | some fc => !fc.isEmpty && fc.contains c.channel_id
      | none => false) then
    (true, { r with record_statu := "1", comment := "NOT_SEND_RULE_FORBID" })
  else if c.is_invalid = CAN_NOT_USE ∨ c.is_del = CAN_NOT_USE then
    (true, { r with record_statu := "2", comment := "NOT_SEND_CHANNEL_INVALID" })
  else
    match c.mapper_monitor_group with
    | some group =>
      if group ≠ "" ∧ pyLower group ≠ "[all]" then
        let normalized := String.mk (group.toList.filter
          (fun ch => ch ≠ '[' ∧ ch ≠ ']'))
        if normalized ≠ "" ∧ ¬ pyContainsStr r.project_group normalized then
          (true, { r with record_statu := "3",
                          comment := "NOT_SEND_PROVIDE_NO_GROUP" })
        else (false, r)
      else (false, r)
    | none => (false, r)

/-- Python `a or b` on an optional/possibly-empty template string. -/
def orElseStr (a : Option String) (b : String) : String :=
  match a with
  | some s => if s = "" then b else s
  | none => b

/-- `msg_channel.channelType or ChannelType(msg_channel.channel_type)`;
`Except.error` models the `ValueError` escaping `_dispatch_channels`. -/
def resolveChannelType (c : MsgChannel) : Except String ChannelType :=
  match c.channelType with
  | some ct => .ok ct
  | none =>
    match parseChannelType c.channel_type with
    | some ct => .ok ct
    | none => .error (c.channel_type ++ " is not a valid ChannelType")

/-- The body of the `_dispatch_channels` loop, folded over the rule's
channel list; returns the mutated record and the channels on which
`provider.send` was actually invoked. -/
def dispatchChannels (fmt : AlertItemRecord → String → String)
    (outcome : MsgChannel → ProviderOutcome) (rules : MsgSendRules) :
    AlertItemRecord → List MsgChannel → List MsgChannel →
    Except String (AlertItemRecord × List MsgChannel)
  | r, [], sent => .ok (r, sent)
  | r, c :: rest, sent =>
    let skip := (isChannelForbidden r c).1
    let r1 := (isChannelForbidden r c).2
    if skip then dispatchChannels fmt outcome rules r1 rest sent
    else
      let template := orElseStr c.msg_format
        (orElseStr rules.msg_fmt r1.alert_msg_org)
      let _message := fmt r1 template
      let r2 := { r1 with currentChannelType := some c.channel_type }
      if r2.currentIsSendMsg then
        match resolveChannelType c with
        | .error e => .error e
        | .ok ct =>
          match outcome c with
          | .ok => dispatchChannels fmt outcome rules r2 rest (sent ++ [c])
          | .sendErr =>
            dispatchChannels fmt outcome rules
              { r2 with record_statu := "9",
                        comment := "PROVIDER_FAIL_" ++ ct.pyName }
              rest (sent ++ [c])
          | .otherErr =>
            dispatchChannels fmt outcome rules
              { r2 with record_statu := "9",
                        comment := "PROVIDER_ERROR_" ++ ct.pyName }
              rest (sent ++ [c])
      else dispatchChannels fmt outcome rules r2 rest sent

/-- The mutable state surrounding one push: the boot-loaded rule map,
the dedup cache, the repository, and an instrumentation log recording
the `event_id#project` key of every `save_record` call. -/
structure EngineState where
  msgSendRules : String → Option MsgSendRules
  tmpMessages : TmpMessages
  records : RepoRecords
  savedLog : List String

/-- Result of `_push_alert_msg_native`: new state, final record object,
response envelope. -/
structure PushResult where
  state : EngineState
  record : AlertItemRecord
  resp : Resp

/-- `cache.get_msg_send_rules` (case-insensitive map). -/
def getMsgSendRules (st : EngineState) (code : String) :
    Option MsgSendRules :=
  st.msgSendRules (pyUpper code)

/-- The rule lookup, four-way branch and channel dispatch of
`_push_alert_msg_native` (everything before the comment/status
overwrite), yielding the mutated record together with the local
`comment` / `record_state` variables, or the exception escaping the
dispatch loop. -/
def pushStep1 (fmt : AlertItemRecord → String → String)
    (outcome : MsgChannel → ProviderOutcome) (st : EngineState)
    (record0 : AlertItemRecord) :
    Except String (AlertItemRecord × String × String) :=
  match getMsgSendRules st record0.alertitem_code with
  | none => .ok (record0, "NOT_SEND", "2")
  | some rules =>
    if rules.msgChannels.isEmpty then .ok (record0, "NOT_SEND", "2")
    else if rules.is_forbid = FORBID_YES then
      .ok (record0, "NOT_SEND_RULE_FORBID", "1")
    else if record0.event_type = EVENT_TYPE_RECOVER ∧
        rules.recover_msg_notsend = 1 then
      .ok (record0, "NOT_SEND_RECOVER_FORBID", "10")
    else
      match dispatchChannels fmt outcome rules record0 rules.msgChannels [] with
      | .error e => .error e
      | .ok (r, _) => .ok (r, "NOT_SEND", "0")

/-- The `alertitem_notshow` overwrite of `_push_alert_msg_native`
(core.py lines 121-131), split out so that the tail of the handler can
be reasoned about on its own. -/
def applyNotshow (st : EngineState) (code : String)
    (r1 : AlertItemRecord) : AlertItemRecord :=
  if r1.forbidRuleType = some MSG_SEND_FORBID_NOT_SHOWANDSEND then
    { r1 with alertitem_notshow := 1 }
  else
    match getMsgSendRules st code with
    | some rules =>
      { r1 with alertitem_notshow :=
          if rules.alertitem_notshow = 0 then 0
          else rules.alertitem_notshow }
    | none => r1

/-- The persistence tail of `_push_alert_msg_native` (core.py lines
135-157), applied to the fully stamped record `r3`. -/
def pushFinish (st : EngineState) (r3 : AlertItemRecord) : PushResult :=
  if r3.event_type = EVENT_TYPE_RECOVER then
    let records1 := (markRecovered st.records r3).1
    let tmp1 := addTmpMessage st.tmpMessages r3.event_id r3.project true
    { state := { st with records := records1, tmpMessages := tmp1 },
      record := r3, resp := .success "OK" }
  else
    match checkTmpMessage st.tmpMessages r3.event_id r3.project with
    | none =>
      let st1 :=
        if r3.forbidRuleType ≠ some MSG_SEND_FORBID_NOT_SHOWANDSEND then
          { st with records := saveRecord st.records r3,
                    savedLog := st.savedLog ++
                      [cacheKey r3.event_id r3.project] }
        else st
      let tmp2 := addTmpMessage st1.tmpMessages r3.event_id r3.project false
      let st2 := { st1 with tmpMessages := tmp2 }
      { state := st2, record := r3, resp := .success "OK" }
    | some _ => { state := st, record := r3, resp := .success "OK" }

/-- `_push_alert_msg_native`: rule lookup, the four-way branch, channel
dispatch, the unconditional comment/status overwrite, and the
dedup-gated persistence tail. -/
def pushAlertMsgNative (fmt : AlertItemRecord → String → String)
    (outcome : MsgChannel → ProviderOutcome) (st : EngineState)
    (record0 : AlertItemRecord) : PushResult :=
  match pushStep1 fmt outcome st record0 with
  | .error e => { state := st, record := record0, resp := .error e }
  | .ok (r1, comment, recordState) =>
    pushFinish st
      { applyNotshow st record0.alertitem_code r1 with
          comment := comment, record_statu := recordState }

/-- Number of `save_record` calls for a given `event_id#project` key. -/
def savesFor (key : String) (st : EngineState) : Nat :=
  (st.savedLog.filter (fun k => k = key)).length

/-- Processing a sequence of pushes, threading the engine state. -/
def pushMany (fmt : AlertItemRecord → String → String)
    (outcome : MsgChannel → ProviderOutcome) (st : EngineState)
    (records : List AlertItemRecord) : EngineState :=
  records.foldl (fun s q => (pushAlertMsgNative fmt outcome s q).state) st

/-! ## Lemmas about the DedupCache -/

theorem addTmpMessage_eq (tmp : TmpMessages) (e p : String) (v : Bool) :
    addTmpMessage tmp e p v =
      (tmp.filter (fun q => q.1 ≠ cacheKey e p) ++ [(cacheKey e p, v)]).drop
        ((tmp.filter (fun q => q.1 ≠ cacheKey e p)).length + 1 - MAX_CACHE_SIZE) := by
  simp [addTmpMessage]

theorem filter_ne_length_of_mem {tmp : TmpMessages} {key : String}
    (hnd : (tmp.map Prod.fst).Nodup) (hmem : key ∈ tmp.map Prod.fst) :
    (tmp.filter (fun p => p.1 ≠ key)).length = tmp.length - 1 := by
  induction tmp with
  | nil => simp at hmem
  | cons hd tl ih =>
    simp only [List.map_cons, List.nodup_cons] at hnd
    rcases List.mem_cons.mp hmem with h | h
    · subst h
      have hself : tl.filter (fun p => p.1 ≠ hd.1) = tl :=
        List.filter_eq_self.mpr (fun a ha => by
          have : a.1 ≠ hd.1 := fun he => hnd.1 (he ▸ List.mem_map_of_mem Prod.fst ha)
          simpa using this)
      rw [List.filter_cons_of_neg (by simp), hself]
      simp
    · have hne : hd.1 ≠ key := fun he => hnd.1 (he ▸ h)
      have htl : 1 ≤ tl.length := by
        rcases List.mem_map.mp h with ⟨a, ha, _⟩
        exact List.length_pos.mpr (List.ne_nil_of_mem ha)
      rw [List.filter_cons_of_pos (by simpa using hne), List.length_cons,
        ih hnd.2 h]
      simp only [List.length_cons]
      omega

theorem addTmp_le_cap (tmp : TmpMessages) (e p : String) (v : Bool) :
    (addTmpMessage tmp e p v).length ≤ MAX_CACHE_SIZE := by
  rw [addTmpMessage_eq]
  simp only [List.length_drop, List.length_append, List.length_cons,
    List.length_nil]
  omega

theorem addTmp_existing (tmp : TmpMessages) (e p : String) (v : Bool)
    (hnd : (tmp.map Prod.fst).Nodup) (hmem : cacheKey e p ∈ tmp.map Prod.fst)
    (hlen : tmp.length ≤ MAX_CACHE_SIZE) :
    (addTmpMessage tmp e p v).length = tmp.length ∧
      (addTmpMessage tmp e p v).getLast? = some (cacheKey e p, v) := by
  have hpos : 1 ≤ tmp.length := by
    rcases List.mem_map.mp hmem with ⟨a, ha, _⟩
    exact List.length_pos.mpr (List.ne_nil_of_mem ha)
  have hflen := filter_ne_length_of_mem hnd hmem
  have hulen :
      (tmp.filter (fun q => q.1 ≠ cacheKey e p) ++ [(cacheKey e p, v)]).length
        = tmp.length := by
    simp only [List.length_append, List.length_cons, List.length_nil, hflen]
    omega
  rw [addTmpMessage_eq, hflen]
  have hz : tmp.length - 1 + 1 - MAX_CACHE_SIZE = 0 := by omega
  rw [hz, List.drop_zero]
  exact ⟨hulen, List.getLast?_concat _⟩

/-- Inserting a sequence of `(event_id, project)` pairs into the cache. -/
def foldAdd (tmp : TmpMessages) (ips : List (String × String)) (v : Bool) :
    TmpMessages :=
  ips.foldl (fun t q => addTmpMessage t q.1 q.2 v) tmp

theorem foldAdd_def (tmp : TmpMessages) (ips : List (String × String))
    (v : Bool) :
    foldAdd tmp ips v = ips.foldl (fun t q => addTmpMessage t q.1 q.2 v) tmp :=
  rfl

theorem foldAdd_append_singleton (qs : List (String × String))
    (q : String × String) (v : Bool) :
    foldAdd [] (qs ++ [q]) v = addTmpMessage (foldAdd [] qs v) q.1 q.2 v := by
  rw [foldAdd_def, List.foldl_append, List.foldl_cons, List.foldl_nil,
    foldAdd_def]

theorem foldAdd_fresh (ips : List (String × String))
    (hnd : (ips.map (fun q => cacheKey q.1 q.2)).Nodup) :
    foldAdd [] ips false =
      ((ips.map (fun q => cacheKey q.1 q.2)).drop
        (ips.length - MAX_CACHE_SIZE)).map (fun k => (k, false)) := by
  induction ips using List.reverseRecOn with
  | nil => simp [foldAdd]
  | append_singleton qs q ih =>
    rw [List.map_append] at hnd
    have hnd' : (qs.map (fun q => cacheKey q.1 q.2)).Nodup :=
      (List.nodup_append.mp hnd).1
    have hnotin : cacheKey q.1 q.2 ∉ qs.map (fun q => cacheKey q.1 q.2) := by
      intro hmem
      exact (List.nodup_append.mp hnd).2.2 hmem (by simp)
    rw [foldAdd_append_singleton, ih hnd']
    set K := qs.map (fun q => cacheKey q.1 q.2) with hK
    set C := (K.drop (qs.length - MAX_CACHE_SIZE)).map (fun k => (k, false))
      with hC
    have hKlen : K.length = qs.length := by simp [hK]
    have hfilter : C.filter (fun x => x.1 ≠ cacheKey q.1 q.2) = C := by
      apply List.filter_eq_self.mpr
      intro a ha
      rcases List.mem_map.mp ha with ⟨k, hk, rfl⟩
      have : k ≠ cacheKey q.1 q.2 := by
        intro he
        exact hnotin (he ▸ List.mem_of_mem_drop hk)
      simpa using this
    have hClen : C.length = K.length - (qs.length - MAX_CACHE_SIZE) := by
      simp [hC]
    rw [addTmpMessage_eq, hfilter]
    rw [List.map_append, List.map_singleton, List.length_append,
      List.length_singleton]
    by_cases hcap : qs.length < MAX_CACHE_SIZE
    · have h1 : qs.length - MAX_CACHE_SIZE = 0 := Nat.sub_eq_zero_of_le
        (Nat.le_of_lt hcap)
      have hClen' : C.length = qs.length := by rw [hClen, h1, hKlen]; omega
      have h3 : C.length + 1 - MAX_CACHE_SIZE = 0 := by omega
      have h2 : qs.length + 1 - MAX_CACHE_SIZE = 0 := by omega
      rw [h3, List.drop_zero, h2, List.drop_zero, hC, h1, List.drop_zero]
      simp [hK]
    · have hge : MAX_CACHE_SIZE ≤ qs.length := Nat.le_of_not_lt hcap
      have hClen' : C.length = MAX_CACHE_SIZE := by rw [hClen, hKlen]; omega
      have hMpos : (0 : Nat) < MAX_CACHE_SIZE := by
        simp [MAX_CACHE_SIZE]
      have h3 : C.length + 1 - MAX_CACHE_SIZE = 1 := by omega
      rw [h3]
      have hdrop1 : (C ++ [(cacheKey q.1 q.2, false)]).drop 1 =
          C.drop 1 ++ [(cacheKey q.1 q.2, false)] :=
        List.drop_append_of_le_length (by omega)
      rw [hdrop1]
      have h4 : qs.length + 1 - MAX_CACHE_SIZE =
          (qs.length - MAX_CACHE_SIZE) + 1 := by omega
      have h5 : (K ++ [cacheKey q.1 q.2]).drop
          ((qs.length - MAX_CACHE_SIZE) + 1) =
          K.drop ((qs.length - MAX_CACHE_SIZE) + 1) ++ [cacheKey q.1 q.2] :=
        List.drop_append_of_le_length (by rw [hKlen]; omega)
      rw [h4, h5, List.map_append, hC, ← List.map_drop, List.drop_drop]
      simp

theorem length_mk (l : List Char) : (String.mk l).length = l.length := rfl

/-- A fixed sample record used to instantiate witnesses. -/
def sampleRecord : AlertItemRecord :=
  { alertitem_record_id := "rid-1"
    event_id := "E1"
    alertitem_code := "JVM001"
    project := "DEMO"
    project_group := "[DEMO]"
    alert_source := "0"
    event_type := "1"
    hostip := "10.0.0.1"
    hostname := "h1"
    alert_level := "2"
    add_time := 100 }

/-- C3: re-inserting an existing key keeps the DedupCache size and
refreshes recency; every insertion leaves at most 20,000 entries; and
inserting 20,001 distinct keys into an empty cache leaves exactly
20,000 entries with the least-recently-touched key evicted first. -/
theorem claim_C3 :
    (∀ (tmp : TmpMessages) (e p : String) (v : Bool),
        (tmp.map Prod.fst).Nodup → cacheKey e p ∈ tmp.map Prod.fst →
        tmp.length ≤ MAX_CACHE_SIZE →
        (addTmpMessage tmp e p v).length = tmp.length ∧
          (addTmpMessage tmp e p v).getLast? = some (cacheKey e p, v)) ∧
    (∀ (tmp : TmpMessages) (e p : String) (v : Bool),
        (addTmpMessage tmp e p v).length ≤ MAX_CACHE_SIZE) ∧
    (∀ ips : List (String × String),
        (ips.map (fun q => cacheKey q.1 q.2)).Nodup → ips.length = 20001 →
        (foldAdd [] ips false).length = 20000 ∧
          (foldAdd [] ips false).map Prod.fst =
            (ips.map (fun q => cacheKey q.1 q.2)).drop 1) := by
  refine ⟨addTmp_existing, addTmp_le_cap, ?_⟩
  intro ips hnd hlen
  rw [foldAdd_fresh ips hnd]
  have hkl : (ips.map (fun q => cacheKey q.1 q.2)).length = 20001 := by
    rw [List.length_map, hlen]
  have hamount : ips.length - MAX_CACHE_SIZE = 1 := by
    rw [hlen]; simp [MAX_CACHE_SIZE]
  rw [hamount]
  constructor
  · rw [List.length_map, List.length_drop, hkl]
  · rw [List.map_map]
    have : (Prod.fst ∘ fun k => (k, false)) = (id : String → String) := rfl
    rw [this, List.map_id]

theorem claim_C3_witness :
    ((addTmpMessage [(cacheKey "a" "P", true), (cacheKey "b" "P", false)]
        "a" "P" false).length = 2 ∧
      (addTmpMessage [(cacheKey "a" "P", true), (cacheKey "b" "P", false)]
        "a" "P" false).getLast? = some (cacheKey "a" "P", false)) ∧
    (addTmpMessage [] "c" "Q" true).length ≤ MAX_CACHE_SIZE ∧
    ((foldAdd []
        ((List.range 20001).map
          (fun n => (String.mk (List.replicate n 'a'), "P"))) false).length
        = 20000 ∧
      (foldAdd []
        ((List.range 20001).map
          (fun n => (String.mk (List.replicate n 'a'), "P"))) false).map
          Prod.fst =
        (((List.range 20001).map
          (fun n => (String.mk (List.replicate n 'a'), "P"))).map
          (fun q => cacheKey q.1 q.2)).drop 1) := by
  have hinj : Function.Injective
      (fun n : Nat => cacheKey (String.mk (List.replicate n 'a')) "P") := by
    intro a b h
    have hl := congrArg String.length h
    simpa [cacheKey, String.length_append, length_mk] using hl
  have hnd : ((((List.range 20001).map
      (fun n => (String.mk (List.replicate n 'a'), "P")))).map
      (fun q => cacheKey q.1 q.2)).Nodup := by
    rw [List.map_map]
    exact (List.nodup_range 20001).map hinj
  have hlen : (((List.range 20001).map
      (fun n => (String.mk (List.replicate n 'a'), "P")))).length = 20001 := by
    rw [List.length_map, List.length_range]
  exact ⟨claim_C3.1 _ "a" "P" false (by decide) (by decide) (by decide),
    claim_C3.2.1 [] "c" "Q" true,
    claim_C3.2.2 _ hnd hlen⟩

/-- C8: `mark_recovered` for a record id absent from the repository
reports zero affected rows, never creates a record, leaves the state
unchanged, and calling it twice is idempotent with zero effect. -/
theorem claim_C8 (records : RepoRecords) (record : AlertItemRecord)
    (h : ∀ s ∈ records, s.alertitem_record_id ≠ record.alertitem_record_id) :
    markRecovered records record = (records, 0) ∧
      markRecovered (markRecovered records record).1 record = (records, 0) := by
  have hany : (records.any
      (fun s => s.alertitem_record_id = record.alertitem_record_id)) = false := by
    rw [List.any_eq_false]
    intro s hs
    simpa using h s hs
  have h1 : markRecovered records record = (records, 0) := by
    unfold markRecovered
    rw [hany]
    simp
  exact ⟨h1, by rw [h1]; exact h1⟩

theorem claim_C8_witness :
    markRecovered [sampleRecord] { sampleRecord with
      alertitem_record_id := "missing-id" } = ([sampleRecord], 0) ∧
      markRecovered (markRecovered [sampleRecord] { sampleRecord with
        alertitem_record_id := "missing-id" }).1 { sampleRecord with
        alertitem_record_id := "missing-id" } = ([sampleRecord], 0) :=
  claim_C8 [sampleRecord] { sampleRecord with
    alertitem_record_id := "missing-id" } (by decide)

/-! ## Lemmas about the rate limiter -/

theorem dropWhile_lt_eq_filter (c : Int) :
    ∀ l : List Int, l.Pairwise (· ≤ ·) →
      l.dropWhile (fun ts => ts < c) = l.filter (fun ts => c ≤ ts)
  | [], _ => rfl
  | h :: t, hp => by
    rcases List.pairwise_cons.mp hp with ⟨hall, ht⟩
    by_cases hc : h < c
    · rw [List.dropWhile_cons_of_pos (by simpa using hc),
        List.filter_cons_of_neg (by simpa using hc)]
      exact dropWhile_lt_eq_filter c t ht
    · push_neg at hc
      rw [List.dropWhile_cons_of_neg (by simpa using hc),
        List.filter_cons_of_pos (by simpa using hc)]
      have : t.filter (fun ts => c ≤ ts) = t :=
        List.filter_eq_self.mpr (fun a ha => by
          simpa using le_trans hc (hall a ha))
      rw [this]

/-- C5: with a positive per-minute limit `m`, a send attempt on a
channel raises exactly when `m` or more sends are already in the
sliding 60-second window; on success the send is admitted into the
window, and other channel ids are never touched. -/
theorem claim_C5 (st : RateWindows) (key : String) (m now : Int)
    (hm : 0 < m) (hsorted : (st key).Pairwise (· ≤ ·)) :
    (((throttle st key (some m) now).2 =
        .error (key ++ " exceeded msgs/min.")) ↔
      m ≤ (((st key).filter (fun ts => now - 60 ≤ ts)).length : Int)) ∧
    (m ≤ (((st key).filter (fun ts => now - 60 ≤ ts)).length : Int) →
      throttle st key (some m) now =
        ((fun k => if k = key then (st key).filter (fun ts => now - 60 ≤ ts)
          else st k), .error (key ++ " exceeded msgs/min."))) ∧
    ((((st key).filter (fun ts => now - 60 ≤ ts)).length : Int) < m →
      throttle st key (some m) now =
        ((fun k => if k = key then
            (st key).filter (fun ts => now - 60 ≤ ts) ++ [now]
          else st k), .ok ())) ∧
    (∀ k, k ≠ key → (throttle st key (some m) now).1 k = st k) := by
  have hw : (st key).dropWhile (fun ts => ts < now - 60) =
      (st key).filter (fun ts => now - 60 ≤ ts) :=
    dropWhile_lt_eq_filter (now - 60) (st key) hsorted
  have hmle : ¬ m ≤ 0 := not_le.mpr hm
  simp only [throttle, hmle, if_false, hw]
  by_cases hcount :
      m ≤ (((st key).filter (fun ts => now - 60 ≤ ts)).length : Int)
  · rw [if_pos (by exact_mod_cast hcount)]
    refine ⟨by simpa using hcount, fun _ => rfl, ?_, ?_⟩
    · intro hlt
      omega
    · intro k hk
      simp [hk]
  · rw [if_neg (by exact_mod_cast hcount)]
    refine ⟨?_, ?_, fun _ => rfl, ?_⟩
    · constructor
      · intro he
        exact absurd he (by simp)
      · intro hle
        exact absurd hle hcount
    · intro hle
      exact absurd hle hcount
    · intro k hk
      simp [hk]

theorem claim_C5_witness :
    (0 : Int) < 3 ∧
    ((fun k => if k = "ch-1" then [(0 : Int), 10, 20] else
      []) "ch-1").Pairwise (· ≤ ·) ∧
    (throttle (fun k => if k = "ch-1" then [(0 : Int), 10, 20] else [])
      "ch-1" (some 3) 30).2 = .error ("ch-1" ++ " exceeded msgs/min.") ∧
    (throttle (fun k => if k = "ch-1" then [(0 : Int), 10, 20] else [])
      "ch-1" (some 3) 90).2 = .ok () := by
  have h30 := claim_C5
    (fun k => if k = "ch-1" then [(0 : Int), 10, 20] else [])
    "ch-1" 3 30 (by decide) (by decide)
  have h90 := claim_C5
    (fun k => if k = "ch-1" then [(0 : Int), 10, 20] else [])
    "ch-1" 3 90 (by decide) (by decide)
  refine ⟨by decide, by decide, h30.1.mpr (by decide), ?_⟩
  have := h90.2.2.1 (by decide)
  rw [this]

/-! ## Lemmas about the ForbidMatcher -/

theorem getLast?_cons_eq {α : Type} (a : α) (l : List α) :
    (a :: l).getLast? = some (l.getLast?.getD a) := by
  induction l generalizing a with
  | nil => rfl
  | cons b bs ih =>
    rw [List.getLast?_cons_cons, ih b]
    simp

theorem forbidStep_eq (t : Nat) (r : AlertItemRecord) (f : MsgSendForbidObj) :
    forbidStep t r f =
      if forbidApplies t r f then
        { r with forbidRuleType := some f.forbidType,
                 forbidChannels := some f.channels }
      else r := by
  unfold forbidStep forbidApplies
  cases f.begTime <;> cases f.endTime <;> simp only []
  · rfl
  · rfl
  · rfl
  · split_ifs <;> simp_all

theorem checkForbid_cons (f : MsgSendForbidObj) (fs : List MsgSendForbidObj)
    (t : Nat) (r : AlertItemRecord) :
    checkForbidRules (f :: fs) t r = checkForbidRules fs t (forbidStep t r f) :=
  rfl

theorem forbidApplies_update (t : Nat) (r : AlertItemRecord)
    (g : MsgSendForbidObj) (x : Option String) (y : Option (List String)) :
    forbidApplies t { r with forbidRuleType := x, forbidChannels := y } g =
      forbidApplies t r g := rfl

/-- `_check_forbid_rules` computes the fields of the LAST applicable
rule in load order (the loop has no break). -/
theorem checkForbid_eq (forbids : List MsgSendForbidObj) (t : Nat)
    (r : AlertItemRecord) :
    checkForbidRules forbids t r =
      match (forbids.filter (fun g => forbidApplies t r g)).getLast? with
      | some f => { r with forbidRuleType := some f.forbidType,
                           forbidChannels := some f.channels }
      | none => r := by
  induction forbids generalizing r with
  | nil => rfl
  | cons f fs ih =>
    rw [checkForbid_cons, forbidStep_eq]
    by_cases h : forbidApplies t r f
    · rw [if_pos h, ih, List.filter_cons_of_pos h]
      have hsame : (fun g => forbidApplies t
          { r with forbidRuleType := some f.forbidType,
                   forbidChannels := some f.channels } g) =
          (fun g => forbidApplies t r g) := rfl
      rw [hsame]
      rw [getLast?_cons_eq f (fs.filter (fun g => forbidApplies t r g))]
      cases hlast : (fs.filter (fun g => forbidApplies t r g)).getLast? with
      | some g => rfl
      | none => rfl
    · rw [if_neg h, ih, List.filter_cons_of_neg (by simpa using h)]

/-- Two overlapping forbid rules used in the C2 correction. -/
def forbidRuleA : MsgSendForbidObj :=
  { begTime := some 0, endTime := some 10, forbidType := "1",
    ips := ["NULL"], alertCodes := ["NULL"], projects := ["NULL"],
    channels := ["c1"] }

def forbidRuleB : MsgSendForbidObj :=
  { begTime := some 0, endTime := some 10, forbidType := "2",
    ips := ["NULL"], alertCodes := ["NULL"], projects := ["NULL"],
    channels := ["c2"] }

/-- C2 counterexample: with two rules both applicable at `t = 5`, the
record receives the forbid-type of the SECOND rule, not of the first
applicable rule as the claim states. -/
theorem claim_C2_counterexample :
    ([forbidRuleA, forbidRuleB].filter
        (fun g => forbidApplies 5 sampleRecord g)).head? = some forbidRuleA ∧
    forbidRuleA.forbidType = "1" ∧
    (checkForbidRules [forbidRuleA, forbidRuleB] 5 sampleRecord).forbidRuleType
      = some "2" ∧
    (checkForbidRules [forbidRuleA, forbidRuleB] 5
      sampleRecord).forbidRuleType ≠ some forbidRuleA.forbidType := by
  refine ⟨by decide, by decide, by decide, by decide⟩

/-- C2 (amended): the record's forbid-type and forbidden-channel set
are those of the last applicable forbid rule in load order (window
contains now; each of the ip/alert-code/project dimensions matches,
`{"NULL"}` being a wildcard and the empty set never matching; a
non-empty host set matches by case-insensitive substring); if no rule
applies the fields stay unset. -/
theorem claim_C2 :
    (∀ (forbids : List MsgSendForbidObj) (t : Nat) (r : AlertItemRecord)
        (f : MsgSendForbidObj),
        (forbids.filter (fun g => forbidApplies t r g)).getLast? = some f →
        checkForbidRules forbids t r =
          { r with forbidRuleType := some f.forbidType,
                   forbidChannels := some f.channels }) ∧
    (∀ (forbids : List MsgSendForbidObj) (t : Nat) (r : AlertItemRecord),
        forbids.filter (fun g => forbidApplies t r g) = [] →
        checkForbidRules forbids t r = r) ∧
    (∀ x : String, matchForbid ["NULL"] x = true) ∧
    matchForbid ["X"] "Y" = false := by
  refine ⟨?_, ?_, ?_, by decide⟩
  · intro forbids t r f hlast
    rw [checkForbid_eq, hlast]
  · intro forbids t r hnil
    rw [checkForbid_eq, hnil]
    rfl
  · intro x
    simp [matchForbid]

theorem claim_C2_witness :
    ([forbidRuleA, forbidRuleB].filter
        (fun g => forbidApplies 5 sampleRecord g)).getLast? =
      some forbidRuleB ∧
    checkForbidRules [forbidRuleA, forbidRuleB] 5 sampleRecord =
      { sampleRecord with forbidRuleType := some forbidRuleB.forbidType,
                          forbidChannels := some forbidRuleB.channels } ∧
    ([] : List MsgSendForbidObj).filter
        (fun g => forbidApplies 7 sampleRecord g) = [] ∧
    checkForbidRules [] 7 sampleRecord = sampleRecord :=
  ⟨by decide, claim_C2.1 _ 5 _ _ (by decide), by decide,
    claim_C2.2.1 [] 7 _ (by decide)⟩

/-! ## RepeatConfirm reconciliation -/

/-- C7: three open create-type records with the same (hostip, alert
code, project) and strictly increasing add-time: one reconciliation
pass confirms the two older ones and leaves the most recent untouched
and unconfirmed. -/
theorem claim_C7 (R1 R2 R3 : AlertItemRecord)
    (hip2 : R2.hostip = R1.hostip) (hip3 : R3.hostip = R1.hostip)
    (hc2 : R2.alertitem_code = R1.alertitem_code)
    (hc3 : R3.alertitem_code = R1.alertitem_code)
    (hp2 : R2.project = R1.project) (hp3 : R3.project = R1.project)
    (he1 : R1.event_type = EVENT_TYPE_CREATE)
    (he2 : R2.event_type = EVENT_TYPE_CREATE)
    (he3 : R3.event_type = EVENT_TYPE_CREATE)
    (hr1 : R1.is_recover = IS_RECOVER_NO)
    (hr2 : R2.is_recover = IS_RECOVER_NO)
    (hr3 : R3.is_recover = IS_RECOVER_NO)
    (h12 : R1.add_time < R2.add_time) (h23 : R2.add_time < R3.add_time)
    (hcf3 : R3.is_confirm = "0") :
    repeatConfirmPass [R1, R2, R3] =
      [{ R1 with is_confirm := CONFIRM_YES },
       { R2 with is_confirm := CONFIRM_YES }, R3] ∧
      R3.is_confirm ≠ CONFIRM_YES := by
  have h12le : R1.add_time ≤ R2.add_time := Nat.le_of_lt h12
  have h23le : R2.add_time ≤ R3.add_time := Nat.le_of_lt h23
  have hne21 : R2.add_time ≠ R1.add_time := (Nat.ne_of_lt h12).symm
  have hne31 : R3.add_time ≠ R1.add_time :=
    (Nat.ne_of_lt (Nat.lt_trans h12 h23)).symm
  have hne12 : R1.add_time ≠ R2.add_time := Nat.ne_of_lt h12
  have hne32 : R3.add_time ≠ R2.add_time := (Nat.ne_of_lt h23).symm
  constructor
  · simp [repeatConfirmPass, queryRepeatCandidates, repeatKey, firstKeys,
      sortByAddTime, insertByAddTime, confirmRepeat, hip2, hip3, hc2, hc3,
      hp2, hp3, he1, he2, he3, hr1, hr2, hr3, h12le, h23le, hne21, hne31,
      hne12, hne32]
  · rw [hcf3]
    simp [CONFIRM_YES]

/-- Second and third sample records of the C7 witness repository. -/
def sampleRecordB : AlertItemRecord :=
  { sampleRecord with alertitem_record_id := "rid-2", add_time := 200 }

def sampleRecordC : AlertItemRecord :=
  { sampleRecord with alertitem_record_id := "rid-3", add_time := 300 }

theorem claim_C7_witness :
    repeatConfirmPass [sampleRecord, sampleRecordB, sampleRecordC] =
      [{ sampleRecord with is_confirm := CONFIRM_YES },
       { sampleRecordB with is_confirm := CONFIRM_YES }, sampleRecordC] ∧
      sampleRecordC.is_confirm ≠ CONFIRM_YES :=
  claim_C7 sampleRecord sampleRecordB sampleRecordC
    rfl rfl rfl rfl rfl rfl rfl rfl rfl rfl rfl rfl
    (by decide) (by decide) rfl

/-! ## Zabbix parser: alert-code extraction and malformed-input errors -/

/-- Following the spec's words: the upper-cased substring strictly
between the first `[` and the first `]` of the ninth pipe field. -/
def specZbxAlertCode (line : String) : String :=
  let field9 := (pySplit line '|').getD 8 ""
  pyUpper (String.mk
    (((field9.toList.dropWhile (fun c => c ≠ '[')).drop 1).takeWhile
      (fun c => c ≠ ']')))

theorem checkForbid_preserves (forbids : List MsgSendForbidObj) (t : Nat)
    (r : AlertItemRecord) :
    (checkForbidRules forbids t r).alertitem_code = r.alertitem_code ∧
    (checkForbidRules forbids t r).event_id = r.event_id ∧
    (checkForbidRules forbids t r).event_type = r.event_type ∧
    (checkForbidRules forbids t r).project = r.project ∧
    (checkForbidRules forbids t r).hostip = r.hostip ∧
    (checkForbidRules forbids t r).hostname = r.hostname := by
  rw [checkForbid_eq]
  cases (forbids.filter (fun g => forbidApplies t r g)).getLast? with
  | some f => exact ⟨rfl, rfl, rfl, rfl, rfl, rfl⟩
  | none => exact ⟨rfl, rfl, rfl, rfl, rfl, rfl⟩

theorem dropWhile_eq_self_of_startsWith (s : String)
    (h : pyStartsWith s "[" = true) :
    s.toList.dropWhile (fun c => c ≠ '[') = s.toList := by
  unfold pyStartsWith at h
  cases hl : s.toList with
  | nil => rw [hl] at h; simp [List.isPrefixOf] at h
  | cons c cs =>
    rw [hl] at h
    have hc : c = '[' := by
      simp [List.isPrefixOf] at h
      exact h.symm
    subst hc
    rw [List.dropWhile_cons_of_neg (by simp)]

/-- C6: whenever the zabbix parser produces a record, its alert code is
the upper-cased bracket token of the ninth field; empty input,
field-count violations and bracket-format violations are rejected with
the corresponding malformed-message errors before any record exists. -/
theorem claim_C6 :
    (∀ (pdt : String → Except String (Option Nat))
        (gai : String → Option AlertItem) (forbids : List MsgSendForbidObj)
        (rid : String) (t : Nat) (msg : String) (r : AlertItemRecord),
        genRecordFromZabbix pdt gai forbids rid t msg = .ok r →
        r.alertitem_code = specZbxAlertCode msg) ∧
    (∀ (pdt : String → Except String (Option Nat))
        (gai : String → Option AlertItem) (forbids : List MsgSendForbidObj)
        (rid : String) (t : Nat),
        genRecordFromZabbix pdt gai forbids rid t "" = .error MSG_EMPTY) ∧
    (∀ (pdt : String → Except String (Option Nat))
        (gai : String → Option AlertItem) (forbids : List MsgSendForbidObj)
        (rid : String) (t : Nat) (msg : String), msg ≠ "" →
        (pySplit msg '|').length < 9 →
        genRecordFromZabbix pdt gai forbids rid t msg =
          .error MSG_BAD_FORMAT) ∧
    (∀ (pdt : String → Except String (Option Nat))
        (gai : String → Option AlertItem) (forbids : List MsgSendForbidObj)
        (rid : String) (t : Nat) (msg : String) (t4 t5 : Option Nat),
        msg ≠ "" → 9 ≤ (pySplit msg '|').length →
        isDisableMsg msg = false →
        pdt ((pySplit msg '|').getD 4 "") = .ok t4 →
        pdt ((pySplit msg '|').getD 5 "") = .ok t5 →
        bracketFormatOk ((pySplit msg '|').getD 7 "") = false →
        genRecordFromZabbix pdt gai forbids rid t msg =
          .error (MSG_BAD_GROUP msg)) ∧
    (∀ (pdt : String → Except String (Option Nat))
        (gai : String → Option AlertItem) (forbids : List MsgSendForbidObj)
        (rid : String) (t : Nat) (msg : String) (t4 t5 : Option Nat),
        msg ≠ "" → 9 ≤ (pySplit msg '|').length →
        isDisableMsg msg = false →
        pdt ((pySplit msg '|').getD 4 "") = .ok t4 →
        pdt ((pySplit msg '|').getD 5 "") = .ok t5 →
        bracketFormatOk ((pySplit msg '|').getD 7 "") = true →
        bracketFormatOk ((pySplit msg '|').getD 8 "") = false →
        genRecordFromZabbix pdt gai forbids rid t msg =
          .error MSG_BAD_ALERTMSG) := by
  refine ⟨?_, ?_, ?_, ?_, ?_⟩
  · intro pdt gai forbids rid t msg r h
    simp only [genRecordFromZabbix] at h
    split at h
    · simp at h
    · split at h
      · simp at h
      · split at h
        · simp at h
        · split at h
          · simp at h
          · split at h
            · simp at h
            · split at h
              · simp at h
              · split at h
                · simp at h
                · rename_i hb9
                  rw [Except.ok.injEq] at h
                  subst h
                  rw [(checkForbid_preserves _ _ _).1]
                  have hb9' : bracketFormatOk ((pySplit msg '|').getD 8 "")
                      = true := by
                    revert hb9
                    cases bracketFormatOk ((pySplit msg '|').getD 8 "") <;>
                      simp
                  have hst : pyStartsWith ((pySplit msg '|').getD 8 "") "["
                      = true := by
                    unfold bracketFormatOk at hb9'
                    cases hps : pyStartsWith ((pySplit msg '|').getD 8 "") "["
                    · rw [hps] at hb9'; simp at hb9'
                    · rfl
                  unfold specZbxAlertCode betweenBrackets
                  dsimp only
                  rw [dropWhile_eq_self_of_startsWith _ hst]
  · intro pdt gai forbids rid t
    rfl
  · intro pdt gai forbids rid t msg hne hlen
    simp only [genRecordFromZabbix, if_neg hne]
    rw [if_pos hlen]
  · intro pdt gai forbids rid t msg t4 t5 hne h9 hdm hp4 hp5 hbr
    have hnl : ¬ ((pySplit msg '|').length < 9) := Nat.not_lt.mpr h9
    simp only [genRecordFromZabbix, if_neg hne, if_neg hnl, hdm,
      Bool.false_eq_true, if_false, hp4, hp5, hbr]
    simp
  · intro pdt gai forbids rid t msg t4 t5 hne h9 hdm hp4 hp5 hbr7 hbr8
    have hnl : ¬ ((pySplit msg '|').length < 9) := Nat.not_lt.mpr h9
    simp only [genRecordFromZabbix, if_neg hne, if_neg hnl, hdm,
      Bool.false_eq_true, if_false, hp4, hp5, hbr7, hbr8]
    simp

/-- Concrete `parse_dot_datetime` used by witnesses: empty fields parse
to `none`, anything else is a `strptime` failure. -/
def pdtW : String → Except String (Option Nat) :=
  fun s => if s = "" then .ok none else .error "bad datetime"

/-- Concrete zabbix line used by witnesses. -/
def zmsgW : String := "EVT42|h1|1.2.3.4|x|||1|[P]|[jvm001]msg"

/-- The record the zabbix parser produces on `zmsgW`. -/
def zbxParsedW : AlertItemRecord :=
  match genRecordFromZabbix pdtW (fun _ => none) [] "rid" 0 zmsgW with
  | .ok r => r
  | .error _ => sampleRecord

theorem claim_C6_witness :
    genRecordFromZabbix pdtW (fun _ => none) [] "rid" 0 zmsgW =
      .ok zbxParsedW ∧
    zbxParsedW.alertitem_code = specZbxAlertCode zmsgW ∧
    genRecordFromZabbix pdtW (fun _ => none) [] "rid" 0 "" =
      .error MSG_EMPTY ∧
    genRecordFromZabbix pdtW (fun _ => none) [] "rid" 0 "a|b" =
      .error MSG_BAD_FORMAT ∧
    genRecordFromZabbix pdtW (fun _ => none) [] "rid" 0
      "EVT|h|i|x|||1|P|[C]m" = .error (MSG_BAD_GROUP "EVT|h|i|x|||1|P|[C]m") ∧
    genRecordFromZabbix pdtW (fun _ => none) [] "rid" 0
      "EVT|h|i|x|||1|[P]|Cm" = .error MSG_BAD_ALERTMSG :=
  ⟨rfl,
    claim_C6.1 pdtW (fun _ => none) [] "rid" 0 zmsgW zbxParsedW rfl,
    claim_C6.2.1 pdtW (fun _ => none) [] "rid" 0,
    claim_C6.2.2.1 pdtW (fun _ => none) [] "rid" 0 "a|b" (by decide)
      (by decide),
    claim_C6.2.2.2.1 pdtW (fun _ => none) [] "rid" 0 "EVT|h|i|x|||1|P|[C]m"
      none none (by decide) (by decide) (by decide) rfl rfl (by decide),
    claim_C6.2.2.2.2 pdtW (fun _ => none) [] "rid" 0 "EVT|h|i|x|||1|[P]|Cm"
      none none (by decide) (by decide) (by decide) rfl rfl (by decide)
      (by decide)⟩

/-! ## Event-id digit lemmas -/

theorem length_padDigits (k n : Nat) : (padDigits k n).length = k := by
  induction k generalizing n with
  | zero => rfl
  | succ k ih => simp [padDigits, ih]

theorem padDigits_lt_ten (k n : Nat) : ∀ d ∈ padDigits k n, d < 10 := by
  induction k generalizing n with
  | zero => simp [padDigits]
  | succ k ih =>
    intro d hd
    simp only [padDigits, List.mem_append, List.mem_singleton] at hd
    rcases hd with hd | hd
    · exact ih _ _ hd
    · subst hd
      exact Nat.mod_lt _ (by norm_num)

theorem digitsVal_foldl (b : List Nat) :
    ∀ acc, b.foldl (fun x d => 10 * x + d) acc =
      acc * 10 ^ b.length + digitsVal b := by
  induction b with
  | nil => intro acc; simp [digitsVal]
  | cons d ds ih =>
    intro acc
    simp only [List.foldl_cons]
    rw [ih (10 * acc + d)]
    have h2 : digitsVal (d :: ds) = d * 10 ^ ds.length + digitsVal ds := by
      show ds.foldl _ (10 * 0 + d) = _
      rw [ih (10 * 0 + d)]
      ring
    rw [h2, List.length_cons]
    ring

theorem digitsVal_append (a b : List Nat) :
    digitsVal (a ++ b) = digitsVal a * 10 ^ b.length + digitsVal b := by
  show (a ++ b).foldl _ 0 = _
  rw [List.foldl_append]
  exact digitsVal_foldl b (a.foldl (fun x d => 10 * x + d) 0)

theorem digitsVal_padDigits (k n : Nat) :
    digitsVal (padDigits k n) = n % 10 ^ k := by
  induction k generalizing n with
  | zero => simp [padDigits, digitsVal, Nat.mod_one]
  | succ k ih =>
    show digitsVal (padDigits k (n / 10) ++ [n % 10]) = _
    rw [digitsVal_append, ih]
    have hm : n % (10 * 10 ^ k) = n % 10 + 10 * (n / 10 % 10 ^ k) :=
      Nat.mod_mul
    have hp : (10 : Nat) ^ (k + 1) = 10 * 10 ^ k := by ring
    rw [hp, hm]
    simp [digitsVal]
    ring

theorem charVal (d : Nat) (hd : d < 10) :
    (Char.ofNat (48 + d)).toNat - 48 = d := by
  interval_cases d <;> rfl

theorem foldl_decode_eq (ds : List Nat) (h : ∀ d ∈ ds, d < 10) :
    ∀ acc, ds.foldl
        (fun a d => 10 * a + ((Char.ofNat (48 + d)).toNat - 48)) acc =
      ds.foldl (fun a d => 10 * a + d) acc := by
  induction ds with
  | nil => intro acc; rfl
  | cons d t ih =>
    intro acc
    simp only [List.foldl_cons]
    rw [charVal d (h d (by simp))]
    exact ih (fun x hx => h x (by simp [hx])) _

theorem decode_digitsToString (ds : List Nat) (h : ∀ d ∈ ds, d < 10) :
    decodeDigitString (digitsToString ds) = digitsVal ds := by
  unfold decodeDigitString digitsToString
  rw [show (String.mk (ds.map fun d => Char.ofNat (48 + d))).toList =
    ds.map (fun d => Char.ofNat (48 + d)) from rfl]
  rw [List.foldl_map]
  exact foldl_decode_eq ds h 0

theorem generateEventId_length (t : PyDateTime) :
    (generateEventId t).length = 20 := by
  unfold generateEventId digitsToString
  rw [length_mk, List.length_map]
  simp [length_padDigits]

theorem decode_generateEventId (t : PyDateTime) (hv : ValidDT t) :
    decodeDigitString (generateEventId t) = dtVal t := by
  obtain ⟨hy, hmo, hd, hh, hmi, hs, hus⟩ := hv
  unfold generateEventId
  rw [decode_digitsToString _ (by
    intro d hd'
    simp only [List.mem_append] at hd'
    rcases hd' with ((((((h' | h') | h') | h') | h') | h') | h')
    all_goals exact padDigits_lt_ten _ _ _ h')]
  rw [digitsVal_append, digitsVal_append, digitsVal_append,
    digitsVal_append, digitsVal_append, digitsVal_append]
  simp only [List.length_append, length_padDigits, digitsVal_padDigits]
  rw [Nat.mod_eq_of_lt (by simpa using hy), Nat.mod_eq_of_lt (by simpa using hmo),
    Nat.mod_eq_of_lt (by simpa using hd), Nat.mod_eq_of_lt (by simpa using hh),
    Nat.mod_eq_of_lt (by simpa using hmi), Nat.mod_eq_of_lt (by simpa using hs),
    Nat.mod_eq_of_lt (by simpa using hus)]
  unfold dtVal
  ring

/-! ## Forbid-field characterisation after ingestion -/

theorem checkForbid_fields (forbids : List MsgSendForbidObj) (t : Nat)
    (r0 : AlertItemRecord) (h1 : r0.forbidRuleType = none)
    (h2 : r0.forbidChannels = none) :
    (checkForbidRules forbids t r0).forbidRuleType =
      ((forbids.filter (fun g => forbidApplies t
        (checkForbidRules forbids t r0) g)).getLast?).map (·.forbidType) ∧
    (checkForbidRules forbids t r0).forbidChannels =
      ((forbids.filter (fun g => forbidApplies t
        (checkForbidRules forbids t r0) g)).getLast?).map (·.channels) := by
  have hfe : (fun g => forbidApplies t (checkForbidRules forbids t r0) g) =
      (fun g => forbidApplies t r0 g) := by
    funext g
    rw [checkForbid_eq]
    cases (forbids.filter (fun g => forbidApplies t r0 g)).getLast? with
    | some f => exact forbidApplies_update t r0 g _ _
    | none => rfl
  rw [hfe, checkForbid_eq]
  cases hlast : (forbids.filter (fun g => forbidApplies t r0 g)).getLast? with
  | some f => exact ⟨rfl, rfl⟩
  | none => exact ⟨by simpa using h1, by simpa using h2⟩

/-- C9 counterexample: the zabbix parser does NOT generate a
timestamp-derived event id — it copies the first pipe field of the
input, which here is `"EVT42"`, a string no `generate_event_id` output
(always 20 digits) can equal. -/
theorem claim_C9_counterexample :
    (genRecordFromZabbix pdtW (fun _ => none) [] "rid" 0 zmsgW).map
        (·.event_id) = .ok "EVT42" ∧
    (∀ t : PyDateTime, (generateEventId t).length = 20) ∧
    ("EVT42" : String).length ≠ 20 :=
  ⟨rfl, generateEventId_length, by decide⟩

/-- C9 (amended): the generic JSON parser stamps every record (always
create-type) with `generate_event_id(now)` — a 20-digit decimal that
decodes to the timestamp value, hence monotonic in the clock — while
the zabbix parser carries the event id over from the input's first
pipe field; both parsers run the ForbidMatcher on the record before
returning it. -/
theorem claim_C9 :
    (∀ (payload : List (String × JVal)) (sourceType : AlertSourceType)
        (defaultProject : String) (gai : String → Option AlertItem)
        (forbids : List MsgSendForbidObj) (rid : String) (tNow : PyDateTime)
        (jsonMsg : String) (r : AlertItemRecord),
        genRecordFromJson payload sourceType defaultProject gai forbids rid
          tNow jsonMsg = .ok r →
        r.event_id = generateEventId tNow ∧
        r.event_type = EVENT_TYPE_CREATE ∧
        r.forbidRuleType = ((forbids.filter
          (fun g => forbidApplies (dtVal tNow) r g)).getLast?).map
            (·.forbidType) ∧
        r.forbidChannels = ((forbids.filter
          (fun g => forbidApplies (dtVal tNow) r g)).getLast?).map
            (·.channels)) ∧
    (∀ t : PyDateTime, ValidDT t → (generateEventId t).length = 20 ∧
        decodeDigitString (generateEventId t) = dtVal t) ∧
    (∀ t1 t2 : PyDateTime, ValidDT t1 → ValidDT t2 → dtVal t1 < dtVal t2 →
        decodeDigitString (generateEventId t1) <
          decodeDigitString (generateEventId t2)) ∧
    (∀ (pdt : String → Except String (Option Nat))
        (gai : String → Option AlertItem) (forbids : List MsgSendForbidObj)
        (rid : String) (t : Nat) (msg : String) (r : AlertItemRecord),
        genRecordFromZabbix pdt gai forbids rid t msg = .ok r →
        isDisableMsg msg = false →
        r.event_id = pyStrip ((pySplit msg '|').getD 0 "") ∧
        r.forbidRuleType = ((forbids.filter
          (fun g => forbidApplies t r g)).getLast?).map (·.forbidType)) := by
  refine ⟨?_, ?_, ?_, ?_⟩
  · intro payload sourceType defaultProject gai forbids rid tNow jsonMsg r h
    simp only [genRecordFromJson] at h
    split at h
    · simp at h
    · split at h
      · simp at h
      · split at h
        · simp at h
        · rw [Except.ok.injEq] at h
          subst h
          refine ⟨(checkForbid_preserves _ _ _).2.1, ?_, ?_, ?_⟩
          · exact (checkForbid_preserves _ _ _).2.2.1
          · exact (checkForbid_fields _ _ _ rfl rfl).1
          · exact (checkForbid_fields _ _ _ rfl rfl).2
  · intro t hv
    exact ⟨generateEventId_length t, decode_generateEventId t hv⟩
  · intro t1 t2 hv1 hv2 hlt
    rw [decode_generateEventId t1 hv1, decode_generateEventId t2 hv2]
    exact hlt
  · intro pdt gai forbids rid t msg r h hdm
    simp only [genRecordFromZabbix] at h
    split at h
    · simp at h
    · split at h
      · simp at h
      · split at h
        · simp at h
        · rename_i eventId heqEid
          rw [hdm] at heqEid
          simp only [Bool.false_eq_true, if_false, Except.ok.injEq]
            at heqEid
          split at h
          · simp at h
          · split at h
            · simp at h
            · split at h
              · simp at h
              · split at h
                · simp at h
                · rw [Except.ok.injEq] at h
                  subst h
                  constructor
                  · rw [(checkForbid_preserves _ _ _).2.1]
                    exact heqEid.symm
                  · exact (checkForbid_fields _ _ _ rfl rfl).1

/-- Concrete JSON payload, metadata lookup and clock for the C9
witness. -/
def jsonPayloadW : List (String × JVal) :=
  [("alertcode", .s "jvm001"), ("hostip", .s "10.0.0.1"),
   ("project", .s "demo"), ("msg", .obj [("message", .s "disk full")])]

def gaiW : String → Option AlertItem :=
  fun c => if c = "JVM001" then some { alertitem_level := "2" } else none

def tNowW : PyDateTime := ⟨2026, 10, 12, 1, 2, 3, 456⟩

def tNow2W : PyDateTime := ⟨2026, 10, 12, 1, 2, 4, 0⟩

/-- The record the JSON parser produces on `jsonPayloadW`. -/
def jsonParsedW : AlertItemRecord :=
  match genRecordFromJson jsonPayloadW .BUSI "DEF" gaiW [] "rid" tNowW
      "raw" with
  | .ok r => r
  | .error _ => sampleRecord

theorem claim_C9_witness :
    (jsonParsedW.event_id = generateEventId tNowW ∧
      jsonParsedW.event_type = EVENT_TYPE_CREATE ∧
      jsonParsedW.forbidRuleType = ((([] : List MsgSendForbidObj).filter
        (fun g => forbidApplies (dtVal tNowW) jsonParsedW g)).getLast?).map
          (·.forbidType) ∧
      jsonParsedW.forbidChannels = ((([] : List MsgSendForbidObj).filter
        (fun g => forbidApplies (dtVal tNowW) jsonParsedW g)).getLast?).map
          (·.channels)) ∧
    ((generateEventId tNowW).length = 20 ∧
      decodeDigitString (generateEventId tNowW) = dtVal tNowW) ∧
    decodeDigitString (generateEventId tNowW) <
      decodeDigitString (generateEventId tNow2W) ∧
    (zbxParsedW.event_id = pyStrip ((pySplit zmsgW '|').getD 0 "") ∧
      zbxParsedW.forbidRuleType = ((([] : List MsgSendForbidObj).filter
        (fun g => forbidApplies 0 zbxParsedW g)).getLast?).map
          (·.forbidType)) :=
  ⟨claim_C9.1 jsonPayloadW .BUSI "DEF" gaiW [] "rid" tNowW "raw"
      jsonParsedW rfl,
    claim_C9.2.1 tNowW (by decide),
    claim_C9.2.2.1 tNowW tNow2W (by decide) (by decide) (by decide),
    claim_C9.2.2.2 pdtW (fun _ => none) [] "rid" 0 zmsgW zbxParsedW rfl
      (by decide)⟩

/-! ## Dispatcher lemmas -/

/-- Fields that `_dispatch_channels` never mutates (it only writes
`record_statu`, `comment` and `currentChannelType`). -/
def dispInvariant (a b : AlertItemRecord) : Prop :=
  a.event_id = b.event_id ∧ a.project = b.project ∧
  a.event_type = b.event_type ∧ a.forbidRuleType = b.forbidRuleType ∧
  a.alertitem_code = b.alertitem_code ∧ a.forbidChannels = b.forbidChannels ∧
  a.project_group = b.project_group ∧
  a.currentIsSendMsg = b.currentIsSendMsg ∧
  a.alert_msg_org = b.alert_msg_org ∧ a.recover_time = b.recover_time

theorem dispInvariant_refl (a : AlertItemRecord) : dispInvariant a a :=
  ⟨rfl, rfl, rfl, rfl, rfl, rfl, rfl, rfl, rfl, rfl⟩

theorem dispInvariant_trans {a b c : AlertItemRecord}
    (h1 : dispInvariant a b) (h2 : dispInvariant b c) : dispInvariant a c := by
  obtain ⟨x1, x2, x3, x4, x5, x6, x7, x8, x9, x10⟩ := h1
  obtain ⟨y1, y2, y3, y4, y5, y6, y7, y8, y9, y10⟩ := h2
  exact ⟨x1.trans y1, x2.trans y2, x3.trans y3, x4.trans y4, x5.trans y5,
    x6.trans y6, x7.trans y7, x8.trans y8, x9.trans y9, x10.trans y10⟩

theorem isChannelForbidden_snd_invariant (r : AlertItemRecord)
    (c : MsgChannel) : dispInvariant (isChannelForbidden r c).2 r := by
  unfold isChannelForbidden
  cases c.mapper_monitor_group with
  | none =>
    split_ifs <;> exact ⟨rfl, rfl, rfl, rfl, rfl, rfl, rfl, rfl, rfl, rfl⟩
  | some g =>
    dsimp only
    split_ifs <;> exact ⟨rfl, rfl, rfl, rfl, rfl, rfl, rfl, rfl, rfl, rfl⟩

theorem skip_congr {r1 r0 : AlertItemRecord} (h : dispInvariant r1 r0)
    (c : MsgChannel) :
    (isChannelForbidden r1 c).1 = (isChannelForbidden r0 c).1 := by
  obtain ⟨-, -, -, -, -, hfc, hpg, -, -, -⟩ := h
  unfold isChannelForbidden
  rw [hfc, hpg]
  cases c.mapper_monitor_group with
  | none => split_ifs <;> rfl
  | some g =>
    dsimp only
    split_ifs <;> rfl

theorem isChannelForbidden_not_skip {r : AlertItemRecord} {c : MsgChannel}
    (h : (isChannelForbidden r c).1 = false) :
    (isChannelForbidden r c).2 = r := by
  unfold isChannelForbidden at h ⊢
  revert h
  cases c.mapper_monitor_group with
  | none =>
    intro h
    split_ifs at h ⊢ <;> simp_all
  | some g =>
    intro h
    dsimp only at h ⊢
    split_ifs at h ⊢ <;> simp_all

theorem dispatch_ok_invariant
    (fmt : AlertItemRecord → String → String)
    (outcome : MsgChannel → ProviderOutcome) (rules : MsgSendRules) :
    ∀ (chans : List MsgChannel) (r : AlertItemRecord)
      (sent : List MsgChannel) (r' : AlertItemRecord)
      (s' : List MsgChannel),
      dispatchChannels fmt outcome rules r chans sent = .ok (r', s') →
      dispInvariant r' r
  | [], r, sent, r', s', h => by
    simp only [dispatchChannels, Except.ok.injEq, Prod.mk.injEq] at h
    rw [← h.1]
    exact dispInvariant_refl r
  | c :: rest, r, sent, r', s', h => by
    simp only [dispatchChannels] at h
    split at h
    · exact dispInvariant_trans
        (dispatch_ok_invariant fmt outcome rules rest _ _ _ _ h)
        (isChannelForbidden_snd_invariant r c)
    · rename_i hskip
      have hr1 : (isChannelForbidden r c).2 = r :=
        isChannelForbidden_not_skip (by simpa using hskip)
      rw [hr1] at h
      split at h
      · split at h
        · simp at h
        · split at h
          · exact dispInvariant_trans
              (dispatch_ok_invariant fmt outcome rules rest _ _ _ _ h)
              ⟨rfl, rfl, rfl, rfl, rfl, rfl, rfl, rfl, rfl, rfl⟩
          · exact dispInvariant_trans
              (dispatch_ok_invariant fmt outcome rules rest _ _ _ _ h)
              ⟨rfl, rfl, rfl, rfl, rfl, rfl, rfl, rfl, rfl, rfl⟩
          · exact dispInvariant_trans
              (dispatch_ok_invariant fmt outcome rules rest _ _ _ _ h)
              ⟨rfl, rfl, rfl, rfl, rfl, rfl, rfl, rfl, rfl, rfl⟩
      · exact dispInvariant_trans
          (dispatch_ok_invariant fmt outcome rules rest _ _ _ _ h)
          ⟨rfl, rfl, rfl, rfl, rfl, rfl, rfl, rfl, rfl, rfl⟩

theorem dispatch_append (fmt : AlertItemRecord → String → String)
    (outcome : MsgChannel → ProviderOutcome) (rules : MsgSendRules) :
    ∀ (l1 : List MsgChannel) (l2 : List MsgChannel) (r : AlertItemRecord)
      (sent : List MsgChannel),
      dispatchChannels fmt outcome rules r (l1 ++ l2) sent =
        (dispatchChannels fmt outcome rules r l1 sent).bind
          (fun p => dispatchChannels fmt outcome rules p.1 l2 p.2)
  | [], l2, r, sent => rfl
  | c :: rest, l2, r, sent => by
    simp only [List.cons_append, dispatchChannels]
    by_cases hskip : (isChannelForbidden r c).1
    · simp only [hskip, if_true]
      exact dispatch_append fmt outcome rules rest l2 _ _
    · rw [if_neg hskip, if_neg hskip]
      by_cases hsm :
          ({ (isChannelForbidden r c).2 with
              currentChannelType := some c.channel_type }).currentIsSendMsg
      · rw [if_pos hsm, if_pos hsm]
        cases hres : resolveChannelType c with
        | error e => rfl
        | ok ct =>
          cases hout : outcome c with
          | ok => exact dispatch_append fmt outcome rules rest l2 _ _
          | sendErr => exact dispatch_append fmt outcome rules rest l2 _ _
          | otherErr => exact dispatch_append fmt outcome rules rest l2 _ _
      · rw [if_neg hsm, if_neg hsm]
        exact dispatch_append fmt outcome rules rest l2 _ _

theorem skip_congr_cct (r : AlertItemRecord) (v : Option String)
    (c : MsgChannel) :
    (isChannelForbidden { r with currentChannelType := v } c).1 =
      (isChannelForbidden r c).1 :=
  @skip_congr { r with currentChannelType := v } r
    ⟨rfl, rfl, rfl, rfl, rfl, rfl, rfl, rfl, rfl, rfl⟩ c

theorem skip_congr_mut (r : AlertItemRecord) (v : Option String)
    (st cm : String) (c : MsgChannel) :
    (isChannelForbidden
        { r with
            currentChannelType := v
            record_statu := st
            comment := cm } c).1 =
      (isChannelForbidden r c).1 :=
  @skip_congr
    { r with currentChannelType := v, record_statu := st, comment := cm } r
    ⟨rfl, rfl, rfl, rfl, rfl, rfl, rfl, rfl, rfl, rfl⟩ c

theorem dispatch_attempts (fmt : AlertItemRecord → String → String)
    (outcome : MsgChannel → ProviderOutcome) (rules : MsgSendRules) :
    ∀ (chans : List MsgChannel) (r : AlertItemRecord)
      (sent : List MsgChannel),
      r.currentIsSendMsg = true →
      (∀ c ∈ chans, ∃ ct, resolveChannelType c = .ok ct) →
      ∃ r', dispatchChannels fmt outcome rules r chans sent =
          .ok (r',
            sent ++ chans.filter (fun c => !(isChannelForbidden r c).1)) ∧
        dispInvariant r' r
  | [], r, sent, _, _ => ⟨r, by simp [dispatchChannels], dispInvariant_refl r⟩
  | c :: rest, r, sent, hsend, hres => by
    by_cases hskip : (isChannelForbidden r c).1
    · have hinv1 := isChannelForbidden_snd_invariant r c
      have hsend1 : (isChannelForbidden r c).2.currentIsSendMsg = true := by
        rw [hinv1.2.2.2.2.2.2.2.1]
        exact hsend
      obtain ⟨r', hd, hinv⟩ := dispatch_attempts fmt outcome rules rest
        ((isChannelForbidden r c).2) sent hsend1
        (fun x hx => hres x (by simp [hx]))
      refine ⟨r', ?_, dispInvariant_trans hinv hinv1⟩
      have hfc : rest.filter
            (fun x => !(isChannelForbidden ((isChannelForbidden r c).2) x).1)
          = rest.filter (fun x => !(isChannelForbidden r x).1) :=
        List.filter_congr (fun x _ => by rw [skip_congr hinv1 x])
      simp only [dispatchChannels]
      rw [if_pos hskip, hd, hfc,
        List.filter_cons_of_neg (by simp [hskip])]
    · have hr1 : (isChannelForbidden r c).2 = r :=
        isChannelForbidden_not_skip (by simpa using hskip)
      have hsend2 : ({ r with currentChannelType := some c.channel_type } :
          AlertItemRecord).currentIsSendMsg = true := hsend
      obtain ⟨ct, hct⟩ := hres c (by simp)
      have hresrest : ∀ x ∈ rest, ∃ ct, resolveChannelType x = .ok ct :=
        fun x hx => hres x (by simp [hx])
      have hfilter : (c :: rest).filter
          (fun x => !(isChannelForbidden r x).1) =
          c :: rest.filter (fun x => !(isChannelForbidden r x).1) :=
        List.filter_cons_of_pos (by simp [hskip])
      cases hout : outcome c with
      | ok =>
        obtain ⟨r', hd, hinv⟩ := dispatch_attempts fmt outcome rules rest
          { r with currentChannelType := some c.channel_type } (sent ++ [c])
          hsend hresrest
        refine ⟨r', ?_, dispInvariant_trans hinv
          ⟨rfl, rfl, rfl, rfl, rfl, rfl, rfl, rfl, rfl, rfl⟩⟩
        simp only [dispatchChannels]
        rw [if_neg hskip, hr1, if_pos hsend2]
        simp only [hct, hout]
        rw [hd]
        rw [List.filter_congr (fun x _ => by rw [skip_congr_cct r _ x]),
          hfilter]
        simp [List.append_assoc]
      | sendErr =>
        obtain ⟨r', hd, hinv⟩ := dispatch_attempts fmt outcome rules rest
          { r with
              currentChannelType := some c.channel_type
              record_statu := "9"
              comment := "PROVIDER_FAIL_" ++ ct.pyName } (sent ++ [c])
          hsend hresrest
        refine ⟨r', ?_, dispInvariant_trans hinv
          ⟨rfl, rfl, rfl, rfl, rfl, rfl, rfl, rfl, rfl, rfl⟩⟩
        simp only [dispatchChannels]
        rw [if_neg hskip, hr1, if_pos hsend2]
        simp only [hct, hout]
        rw [hd]
        rw [List.filter_congr (fun x _ => by rw [skip_congr_mut r _ _ _ x]),
          hfilter]
        simp [List.append_assoc]
      | otherErr =>
        obtain ⟨r', hd, hinv⟩ := dispatch_attempts fmt outcome rules rest
          { r with
              currentChannelType := some c.channel_type
              record_statu := "9"
              comment := "PROVIDER_ERROR_" ++ ct.pyName } (sent ++ [c])
          hsend hresrest
        refine ⟨r', ?_, dispInvariant_trans hinv
          ⟨rfl, rfl, rfl, rfl, rfl, rfl, rfl, rfl, rfl, rfl⟩⟩
        simp only [dispatchChannels]
        rw [if_neg hskip, hr1, if_pos hsend2]
        simp only [hct, hout]
        rw [hd]
        rw [List.filter_congr (fun x _ => by rw [skip_congr_mut r _ _ _ x]),
          hfilter]
        simp [List.append_assoc]

theorem dispatch_clean (fmt : AlertItemRecord → String → String)
    (outcome : MsgChannel → ProviderOutcome) (rules : MsgSendRules) :
    ∀ (chans : List MsgChannel) (r : AlertItemRecord)
      (sent : List MsgChannel),
      r.currentIsSendMsg = true →
      (∀ x ∈ chans, (isChannelForbidden r x).1 = false ∧
        outcome x = .ok ∧ ∃ ct, resolveChannelType x = .ok ct) →
      ∃ r', dispatchChannels fmt outcome rules r chans sent =
          .ok (r', sent ++ chans) ∧ dispInvariant r' r ∧
        r'.record_statu = r.record_statu ∧ r'.comment = r.comment
  | [], r, sent, _, _ =>
    ⟨r, by simp [dispatchChannels], dispInvariant_refl r, rfl, rfl⟩
  | c :: rest, r, sent, hsend, hclean => by
    obtain ⟨hskip, hout, ct, hct⟩ := hclean c (by simp)
    have hr1 : (isChannelForbidden r c).2 = r :=
      isChannelForbidden_not_skip hskip
    have hsend2 : ({ r with currentChannelType := some c.channel_type } :
        AlertItemRecord).currentIsSendMsg = true := hsend
    have hcleanrest : ∀ x ∈ rest,
        (isChannelForbidden
          ({ r with currentChannelType := some c.channel_type } :
            AlertItemRecord) x).1 = false ∧
        outcome x = .ok ∧ ∃ ct, resolveChannelType x = .ok ct := by
      intro x hx
      obtain ⟨h1, h2, h3⟩ := hclean x (by simp [hx])
      exact ⟨by rw [skip_congr_cct r _ x]; exact h1, h2, h3⟩
    obtain ⟨r', hd, hinv, hst, hcm⟩ := dispatch_clean fmt outcome rules rest
      { r with currentChannelType := some c.channel_type } (sent ++ [c])
      hsend hcleanrest
    refine ⟨r', ?_, dispInvariant_trans hinv
      ⟨rfl, rfl, rfl, rfl, rfl, rfl, rfl, rfl, rfl, rfl⟩, hst, hcm⟩
    simp only [dispatchChannels]
    rw [if_neg (by simp [hskip]), hr1, if_pos hsend2]
    simp only [hct, hout]
    rw [hd]
    simp

theorem dispatch_ok_of_resolvable (fmt : AlertItemRecord → String → String)
    (outcome : MsgChannel → ProviderOutcome) (rules : MsgSendRules) :
    ∀ (chans : List MsgChannel) (r : AlertItemRecord)
      (sent : List MsgChannel),
      (∀ c ∈ chans, ∃ ct, resolveChannelType c = .ok ct) →
      ∃ r' s', dispatchChannels fmt outcome rules r chans sent =
          .ok (r', s') ∧ dispInvariant r' r
  | [], r, sent, _ => ⟨r, sent, by simp [dispatchChannels], dispInvariant_refl r⟩
  | c :: rest, r, sent, hres => by
    have hresrest : ∀ x ∈ rest, ∃ ct, resolveChannelType x = .ok ct :=
      fun x hx => hres x (by simp [hx])
    by_cases hskip : (isChannelForbidden r c).1
    · obtain ⟨r', s', hd, hinv⟩ := dispatch_ok_of_resolvable fmt outcome
        rules rest ((isChannelForbidden r c).2) sent hresrest
      refine ⟨r', s', ?_,
        dispInvariant_trans hinv (isChannelForbidden_snd_invariant r c)⟩
      simp only [dispatchChannels]
      rw [if_pos hskip, hd]
    · have hr1 : (isChannelForbidden r c).2 = r :=
        isChannelForbidden_not_skip (by simpa using hskip)
      obtain ⟨ct, hct⟩ := hres c (by simp)
      by_cases hsm : r.currentIsSendMsg
      · cases hout : outcome c with
        | ok =>
          obtain ⟨r', s', hd, hinv⟩ := dispatch_ok_of_resolvable fmt outcome
            rules rest { r with currentChannelType := some c.channel_type }
            (sent ++ [c]) hresrest
          refine ⟨r', s', ?_, dispInvariant_trans hinv
            ⟨rfl, rfl, rfl, rfl, rfl, rfl, rfl, rfl, rfl, rfl⟩⟩
          simp only [dispatchChannels]
          rw [if_neg hskip, hr1, if_pos hsm]
          simp only [hct, hout]
          exact hd
        | sendErr =>
          obtain ⟨r', s', hd, hinv⟩ := dispatch_ok_of_resolvable fmt outcome
            rules rest
            { r with
                currentChannelType := some c.channel_type
                record_statu := "9"
                comment := "PROVIDER_FAIL_" ++ ct.pyName }
            (sent ++ [c]) hresrest
          refine ⟨r', s', ?_, dispInvariant_trans hinv
            ⟨rfl, rfl, rfl, rfl, rfl, rfl, rfl, rfl, rfl, rfl⟩⟩
          simp only [dispatchChannels]
          rw [if_neg hskip, hr1, if_pos hsm]
          simp only [hct, hout]
          exact hd
        | otherErr =>
          obtain ⟨r', s', hd, hinv⟩ := dispatch_ok_of_resolvable fmt outcome
            rules rest
            { r with
                currentChannelType := some c.channel_type
                record_statu := "9"
                comment := "PROVIDER_ERROR_" ++ ct.pyName }
            (sent ++ [c]) hresrest
          refine ⟨r', s', ?_, dispInvariant_trans hinv
            ⟨rfl, rfl, rfl, rfl, rfl, rfl, rfl, rfl, rfl, rfl⟩⟩
          simp only [dispatchChannels]
          rw [if_neg hskip, hr1, if_pos hsm]
          simp only [hct, hout]
          exact hd
      · obtain ⟨r', s', hd, hinv⟩ := dispatch_ok_of_resolvable fmt outcome
          rules rest { r with currentChannelType := some c.channel_type }
          sent hresrest
        refine ⟨r', s', ?_, dispInvariant_trans hinv
          ⟨rfl, rfl, rfl, rfl, rfl, rfl, rfl, rfl, rfl, rfl⟩⟩
        simp only [dispatchChannels]
        rw [if_neg hskip, hr1, if_neg hsm]
        exact hd

theorem applyNotshow_invariant (st : EngineState) (code : String)
    (r1 : AlertItemRecord) :
    (applyNotshow st code r1).event_id = r1.event_id ∧
    (applyNotshow st code r1).project = r1.project ∧
    (applyNotshow st code r1).event_type = r1.event_type ∧
    (applyNotshow st code r1).forbidRuleType = r1.forbidRuleType := by
  unfold applyNotshow
  split
  · exact ⟨rfl, rfl, rfl, rfl⟩
  · split <;> exact ⟨rfl, rfl, rfl, rfl⟩

theorem pushResult_mk_state (a : EngineState) (b : AlertItemRecord)
    (c : Resp) :
    (({ state := a, record := b, resp := c } : PushResult)).state = a := rfl

theorem engineState_mk_tmp (m : String → Option MsgSendRules)
    (t : TmpMessages) (rec : RepoRecords) (log : List String) :
    (({ msgSendRules := m, tmpMessages := t, records := rec,
        savedLog := log } : EngineState)).tmpMessages = t := rfl

theorem engineState_mk_rules (m : String → Option MsgSendRules)
    (t : TmpMessages) (rec : RepoRecords) (log : List String) :
    (({ msgSendRules := m, tmpMessages := t, records := rec,
        savedLog := log } : EngineState)).msgSendRules = m := rfl

theorem engineState_mk_log (m : String → Option MsgSendRules)
    (t : TmpMessages) (rec : RepoRecords) (log : List String) :
    (({ msgSendRules := m, tmpMessages := t, records := rec,
        savedLog := log } : EngineState)).savedLog = log := rfl

theorem engineState_mk_records (m : String → Option MsgSendRules)
    (t : TmpMessages) (rec : RepoRecords) (log : List String) :
    (({ msgSendRules := m, tmpMessages := t, records := rec,
        savedLog := log } : EngineState)).records = rec := rfl

theorem pushFinish_resp (st : EngineState) (r3 : AlertItemRecord) :
    (pushFinish st r3).resp = .success "OK" := by
  unfold pushFinish
  split
  · rfl
  · split <;> rfl

theorem push_eq_finish (fmt : AlertItemRecord → String → String)
    (outcome : MsgChannel → ProviderOutcome) (st : EngineState)
    (r : AlertItemRecord) (r1 : AlertItemRecord) (cm rs : String)
    (hstep : pushStep1 fmt outcome st r = .ok (r1, cm, rs)) :
    pushAlertMsgNative fmt outcome st r =
      pushFinish st
        { applyNotshow st r.alertitem_code r1 with
            comment := cm, record_statu := rs } := by
  unfold pushAlertMsgNative
  rw [hstep]

theorem pushFinish_recover (st : EngineState) (r3 : AlertItemRecord)
    (hc : r3.event_type = EVENT_TYPE_RECOVER) :
    pushFinish st r3 =
      { state :=
          { st with
              records := (markRecovered st.records r3).1
              tmpMessages :=
                addTmpMessage st.tmpMessages r3.event_id r3.project true }
        record := r3
        resp := .success "OK" } := by
  unfold pushFinish
  rw [if_pos hc]

theorem pushFinish_dup (st : EngineState) (r3 : AlertItemRecord) (v : Bool)
    (hc : ¬ r3.event_type = EVENT_TYPE_RECOVER)
    (hk : checkTmpMessage st.tmpMessages r3.event_id r3.project = some v) :
    pushFinish st r3 =
      { state := st, record := r3, resp := .success "OK" } := by
  unfold pushFinish
  rw [if_neg hc, hk]

theorem pushFinish_first (st : EngineState) (r3 : AlertItemRecord)
    (hc : ¬ r3.event_type = EVENT_TYPE_RECOVER)
    (hk : checkTmpMessage st.tmpMessages r3.event_id r3.project = none)
    (hf : ¬ r3.forbidRuleType = some MSG_SEND_FORBID_NOT_SHOWANDSEND) :
    pushFinish st r3 =
      { state :=
          { msgSendRules := st.msgSendRules
            tmpMessages :=
              addTmpMessage st.tmpMessages r3.event_id r3.project false
            records := saveRecord st.records r3
            savedLog := st.savedLog ++ [cacheKey r3.event_id r3.project] }
        record := r3
        resp := .success "OK" } := by
  unfold pushFinish
  rw [if_neg hc, hk]
  dsimp only
  rw [if_pos hf]

theorem pushFinish_first_forbid (st : EngineState) (r3 : AlertItemRecord)
    (hc : ¬ r3.event_type = EVENT_TYPE_RECOVER)
    (hk : checkTmpMessage st.tmpMessages r3.event_id r3.project = none)
    (hf : r3.forbidRuleType = some MSG_SEND_FORBID_NOT_SHOWANDSEND) :
    pushFinish st r3 =
      { state :=
          { st with
              tmpMessages :=
                addTmpMessage st.tmpMessages r3.event_id r3.project false }
        record := r3
        resp := .success "OK" } := by
  unfold pushFinish
  rw [if_neg hc, hk]
  dsimp only
  rw [if_neg (not_not_intro hf)]

theorem push_resp_of_dispatch (fmt : AlertItemRecord → String → String)
    (outcome : MsgChannel → ProviderOutcome) (st : EngineState)
    (r0 : AlertItemRecord) (rules : MsgSendRules)
    (hrules : getMsgSendRules st r0.alertitem_code = some rules)
    (hne : rules.msgChannels.isEmpty = false)
    (hforb : ¬ rules.is_forbid = FORBID_YES)
    (hrec : ¬ (r0.event_type = EVENT_TYPE_RECOVER ∧
      rules.recover_msg_notsend = 1))
    (r' : AlertItemRecord) (s' : List MsgChannel)
    (hd : dispatchChannels fmt outcome rules r0 rules.msgChannels [] =
      .ok (r', s')) :
    (pushAlertMsgNative fmt outcome st r0).resp = .success "OK" := by
  have hs : pushStep1 fmt outcome st r0 = .ok (r', "NOT_SEND", "0") := by
    unfold pushStep1
    rw [hrules]
    simp only [hne, Bool.false_eq_true, if_false, if_neg hforb, if_neg hrec,
      hd]
  rw [push_eq_finish fmt outcome st r0 r' "NOT_SEND" "0" hs]
  exact pushFinish_resp st _

/-- C4: within one dispatch over the rule's channels, a provider
failure on channel `c` marks the record with the provider-failure
status and a channel-type-tagged comment, yet every later channel is
still attempted (the invoked-channel list covers the whole non-skipped
suffix), and the enclosing push still answers the success envelope. -/
theorem claim_C4 (fmt : AlertItemRecord → String → String)
    (outcome : MsgChannel → ProviderOutcome) (st : EngineState)
    (rules : MsgSendRules) (r0 : AlertItemRecord)
    (pre post : List MsgChannel) (c : MsgChannel)
    (hch : rules.msgChannels = pre ++ c :: post)
    (hsend : r0.currentIsSendMsg = true)
    (hres : ∀ x ∈ rules.msgChannels, ∃ ct, resolveChannelType x = .ok ct)
    (hskip : (isChannelForbidden r0 c).1 = false)
    (hfail : outcome c = .sendErr)
    (hpost : ∀ x ∈ post, (isChannelForbidden r0 x).1 = false ∧
      outcome x = .ok)
    (hrules : getMsgSendRules st r0.alertitem_code = some rules)
    (hforb : ¬ rules.is_forbid = FORBID_YES)
    (hrec : ¬ (r0.event_type = EVENT_TYPE_RECOVER ∧
      rules.recover_msg_notsend = 1)) :
    ∃ r' ct,
      dispatchChannels fmt outcome rules r0 rules.msgChannels [] =
        .ok (r', pre.filter (fun x => !(isChannelForbidden r0 x).1) ++
          c :: post) ∧
      resolveChannelType c = .ok ct ∧
      r'.record_statu = "9" ∧
      r'.comment = "PROVIDER_FAIL_" ++ ct.pyName ∧
      (pushAlertMsgNative fmt outcome st r0).resp = .success "OK" := by
  have hrespre : ∀ x ∈ pre, ∃ ct, resolveChannelType x = .ok ct :=
    fun x hx => hres x (by rw [hch]; simp [hx])
  obtain ⟨r1, hd1, hinv1⟩ := dispatch_attempts fmt outcome rules pre r0 []
    hsend hrespre
  obtain ⟨ct, hct⟩ := hres c (by rw [hch]; simp)
  have hskip1 : (isChannelForbidden r1 c).1 = false := by
    rw [skip_congr hinv1 c]
    exact hskip
  have hr1c : (isChannelForbidden r1 c).2 = r1 :=
    isChannelForbidden_not_skip hskip1
  have hsend1 : r1.currentIsSendMsg = true := by
    rw [hinv1.2.2.2.2.2.2.2.1]
    exact hsend
  have hinv3 : dispInvariant
      ({ r1 with
          currentChannelType := some c.channel_type
          record_statu := "9"
          comment := "PROVIDER_FAIL_" ++ ct.pyName } : AlertItemRecord)
      r0 :=
    dispInvariant_trans
      ⟨rfl, rfl, rfl, rfl, rfl, rfl, rfl, rfl, rfl, rfl⟩ hinv1
  have hsend3 : ({ r1 with
      currentChannelType := some c.channel_type
      record_statu := "9"
      comment := "PROVIDER_FAIL_" ++ ct.pyName } :
      AlertItemRecord).currentIsSendMsg = true := hsend1
  have hcleanpost : ∀ x ∈ post,
      (isChannelForbidden ({ r1 with
          currentChannelType := some c.channel_type
          record_statu := "9"
          comment := "PROVIDER_FAIL_" ++ ct.pyName } :
          AlertItemRecord) x).1 = false ∧
      outcome x = .ok ∧ ∃ ct, resolveChannelType x = .ok ct := by
    intro x hx
    refine ⟨?_, (hpost x hx).2, hres x (by rw [hch]; simp [hx])⟩
    rw [skip_congr hinv3 x]
    exact (hpost x hx).1
  obtain ⟨r', hdpost, hinvp, hst, hcm⟩ := dispatch_clean fmt outcome rules
    post
    { r1 with
        currentChannelType := some c.channel_type
        record_statu := "9"
        comment := "PROVIDER_FAIL_" ++ ct.pyName }
    (pre.filter (fun x => !(isChannelForbidden r0 x).1) ++ [c])
    hsend3 hcleanpost
  have hdall : dispatchChannels fmt outcome rules r0 rules.msgChannels [] =
      .ok (r', pre.filter (fun x => !(isChannelForbidden r0 x).1) ++
        c :: post) := by
    rw [hch, dispatch_append fmt outcome rules pre (c :: post) r0 [], hd1]
    show dispatchChannels fmt outcome rules r1 (c :: post)
      ([] ++ pre.filter (fun x => !(isChannelForbidden r0 x).1)) = _
    rw [List.nil_append]
    simp only [dispatchChannels]
    rw [if_neg (by simp [hskip1]), hr1c, if_pos hsend3]
    simp only [hct, hfail]
    rw [hdpost]
    simp [List.append_assoc]
  refine ⟨r', ct, hdall, hct, ?_, ?_, ?_⟩
  · rw [hst]
  · rw [hcm]
  · exact push_resp_of_dispatch fmt outcome st r0 rules hrules
      (by rw [hch]; cases pre <;> simp) hforb hrec r' _ hdall

/-- Concrete channels, rules, engine state and collaborators for the
dispatcher witnesses. -/
def cW1 : MsgChannel :=
  { channel_id := "ch-1", channel_type := "4", channelType := some .MAIL }

def cW2 : MsgChannel :=
  { channel_id := "ch-2", channel_type := "4", channelType := some .MAIL }

def rulesW : MsgSendRules := { msgChannels := [cW1, cW2] }

def stW : EngineState :=
  { msgSendRules := fun code => if code = "JVM001" then some rulesW else none
    tmpMessages := []
    records := []
    savedLog := [] }

def fmtW : AlertItemRecord → String → String := fun r _ => r.alert_msg

def outcomeW : MsgChannel → ProviderOutcome :=
  fun ch => if ch.channel_id = "ch-1" then .sendErr else .ok

theorem claim_C4_witness :
    ∃ r' ct,
      dispatchChannels fmtW outcomeW rulesW sampleRecord rulesW.msgChannels
          [] = .ok (r',
            ([] : List MsgChannel).filter
              (fun x => !(isChannelForbidden sampleRecord x).1) ++
            cW1 :: [cW2]) ∧
      resolveChannelType cW1 = .ok ct ∧
      r'.record_statu = "9" ∧
      r'.comment = "PROVIDER_FAIL_" ++ ct.pyName ∧
      (pushAlertMsgNative fmtW outcomeW stW sampleRecord).resp =
        .success "OK" :=
  claim_C4 fmtW outcomeW stW rulesW sampleRecord [] [cW2] cW1 rfl rfl
    (by
      intro x hx
      simp only [rulesW, List.mem_cons, List.not_mem_nil, or_false] at hx
      rcases hx with rfl | rfl
      · exact ⟨.MAIL, rfl⟩
      · exact ⟨.MAIL, rfl⟩)
    (by decide) (by decide)
    (by
      intro x hx
      simp only [List.mem_singleton] at hx
      subst hx
      exact ⟨by decide, by decide⟩)
    rfl (by decide) (by decide)

theorem find?_append_key {key : String} (v : Bool) :
    ∀ l : List (String × Bool), (∀ x ∈ l, x.1 ≠ key) →
      (l ++ [(key, v)]).find? (fun p => p.1 = key) = some (key, v)
  | [], _ => by simp
  | x :: xs, h => by
    rw [List.cons_append,
      List.find?_cons_of_neg _ (by simpa using h x (by simp))]
    exact find?_append_key v xs (fun y hy => h y (by simp [hy]))

theorem checkTmp_addTmp_self (tmp : TmpMessages) (e p : String) (v : Bool) :
    checkTmpMessage (addTmpMessage tmp e p v) e p = some v := by
  unfold checkTmpMessage
  rw [addTmpMessage_eq]
  have ha : (tmp.filter (fun q => q.1 ≠ cacheKey e p)).length + 1 -
      MAX_CACHE_SIZE ≤ (tmp.filter (fun q => q.1 ≠ cacheKey e p)).length := by
    have : (0 : Nat) < MAX_CACHE_SIZE := by simp [MAX_CACHE_SIZE]
    omega
  rw [List.drop_append_of_le_length ha]
  rw [find?_append_key v _ (fun x hx => by
    have := List.of_mem_filter (List.mem_of_mem_drop hx)
    simpa using this)]
  rfl

theorem pushStep1_ok_invariant (fmt : AlertItemRecord → String → String)
    (outcome : MsgChannel → ProviderOutcome) (st : EngineState)
    (r : AlertItemRecord) (r1 : AlertItemRecord) (cm rs : String)
    (h : pushStep1 fmt outcome st r = .ok (r1, cm, rs)) :
    dispInvariant r1 r := by
  unfold pushStep1 at h
  split at h
  · rw [Except.ok.injEq, Prod.mk.injEq] at h
    rw [← h.1]
    exact dispInvariant_refl r
  · split at h
    · rw [Except.ok.injEq, Prod.mk.injEq] at h
      rw [← h.1]
      exact dispInvariant_refl r
    · split at h
      · rw [Except.ok.injEq, Prod.mk.injEq] at h
        rw [← h.1]
        exact dispInvariant_refl r
      · split at h
        · rw [Except.ok.injEq, Prod.mk.injEq] at h
          rw [← h.1]
          exact dispInvariant_refl r
        · split at h
          · simp at h
          · rename_i heq
            rw [Except.ok.injEq, Prod.mk.injEq] at h
            rw [← h.1]
            exact dispatch_ok_invariant fmt outcome _ _ _ _ _ _ heq

theorem pushStep1_ok_of_resolvable (fmt : AlertItemRecord → String → String)
    (outcome : MsgChannel → ProviderOutcome) (st : EngineState)
    (r : AlertItemRecord)
    (hres : ∀ rules, getMsgSendRules st r.alertitem_code = some rules →
      ∀ c ∈ rules.msgChannels, ∃ ct, resolveChannelType c = .ok ct) :
    ∃ r1 cm rs, pushStep1 fmt outcome st r = .ok (r1, cm, rs) ∧
      dispInvariant r1 r := by
  unfold pushStep1
  cases hro : getMsgSendRules st r.alertitem_code with
  | none => exact ⟨r, "NOT_SEND", "2", rfl, dispInvariant_refl r⟩
  | some rules =>
    dsimp only
    by_cases h1 : rules.msgChannels.isEmpty
    · rw [if_pos h1]
      exact ⟨r, "NOT_SEND", "2", rfl, dispInvariant_refl r⟩
    · rw [if_neg h1]
      by_cases h2 : rules.is_forbid = FORBID_YES
      · rw [if_pos h2]
        exact ⟨r, "NOT_SEND_RULE_FORBID", "1", rfl, dispInvariant_refl r⟩
      · rw [if_neg h2]
        by_cases h3 : r.event_type = EVENT_TYPE_RECOVER ∧
            rules.recover_msg_notsend = 1
        · rw [if_pos h3]
          exact ⟨r, "NOT_SEND_RECOVER_FORBID", "10", rfl,
            dispInvariant_refl r⟩
        · rw [if_neg h3]
          obtain ⟨r', s', hd, hinv⟩ := dispatch_ok_of_resolvable fmt outcome
            rules rules.msgChannels r [] (hres rules hro)
          rw [hd]
          exact ⟨r', "NOT_SEND", "0", rfl, hinv⟩

theorem stamped_fields (st : EngineState) (r r1 : AlertItemRecord)
    (cm rs : String) (hinv : dispInvariant r1 r) :
    ({ applyNotshow st r.alertitem_code r1 with
        comment := cm, record_statu := rs } : AlertItemRecord).event_id =
      r.event_id ∧
    ({ applyNotshow st r.alertitem_code r1 with
        comment := cm, record_statu := rs } : AlertItemRecord).project =
      r.project ∧
    ({ applyNotshow st r.alertitem_code r1 with
        comment := cm, record_statu := rs } : AlertItemRecord).event_type =
      r.event_type ∧
    ({ applyNotshow st r.alertitem_code r1 with
        comment := cm, record_statu := rs } : AlertItemRecord).forbidRuleType =
      r.forbidRuleType := by
  obtain ⟨ha1, ha2, ha3, ha4⟩ := applyNotshow_invariant st r.alertitem_code r1
  refine ⟨?_, ?_, ?_, ?_⟩
  · show (applyNotshow st r.alertitem_code r1).event_id = r.event_id
    rw [ha1]
    exact hinv.1
  · show (applyNotshow st r.alertitem_code r1).project = r.project
    rw [ha2]
    exact hinv.2.1
  · show (applyNotshow st r.alertitem_code r1).event_type = r.event_type
    rw [ha3]
    exact hinv.2.2.1
  · show (applyNotshow st r.alertitem_code r1).forbidRuleType =
      r.forbidRuleType
    rw [ha4]
    exact hinv.2.2.2.1

theorem push_create_first (fmt : AlertItemRecord → String → String)
    (outcome : MsgChannel → ProviderOutcome) (st : EngineState)
    (r : AlertItemRecord)
    (hres : ∀ rules, getMsgSendRules st r.alertitem_code = some rules →
      ∀ c ∈ rules.msgChannels, ∃ ct, resolveChannelType c = .ok ct)
    (hkey : checkTmpMessage st.tmpMessages r.event_id r.project = none)
    (hcreate : ¬ r.event_type = EVENT_TYPE_RECOVER)
    (hforbid : ¬ r.forbidRuleType = some MSG_SEND_FORBID_NOT_SHOWANDSEND) :
    (pushAlertMsgNative fmt outcome st r).state.savedLog =
      st.savedLog ++ [cacheKey r.event_id r.project] ∧
    (pushAlertMsgNative fmt outcome st r).state.tmpMessages =
      addTmpMessage st.tmpMessages r.event_id r.project false ∧
    (pushAlertMsgNative fmt outcome st r).state.msgSendRules =
      st.msgSendRules ∧
    (pushAlertMsgNative fmt outcome st r).resp = .success "OK" := by
  obtain ⟨r1, cm, rs, hstep, hinv⟩ :=
    pushStep1_ok_of_resolvable fmt outcome st r hres
  obtain ⟨heid, hpj, het, hft⟩ := stamped_fields st r r1 cm rs hinv
  rw [push_eq_finish fmt outcome st r r1 cm rs hstep,
    pushFinish_first st _ (by rw [het]; exact hcreate)
      (by rw [heid, hpj]; exact hkey) (by rw [hft]; exact hforbid)]
  rw [heid, hpj]
  refine ⟨rfl, ?_, ?_, rfl⟩
  · rw [pushResult_mk_state, engineState_mk_tmp]
  · rw [pushResult_mk_state, engineState_mk_rules]

theorem push_dup (fmt : AlertItemRecord → String → String)
    (outcome : MsgChannel → ProviderOutcome) (st : EngineState)
    (r : AlertItemRecord) (v : Bool)
    (hres : ∀ rules, getMsgSendRules st r.alertitem_code = some rules →
      ∀ c ∈ rules.msgChannels, ∃ ct, resolveChannelType c = .ok ct)
    (hkey : checkTmpMessage st.tmpMessages r.event_id r.project = some v)
    (hcreate : ¬ r.event_type = EVENT_TYPE_RECOVER) :
    (pushAlertMsgNative fmt outcome st r).state = st ∧
    (pushAlertMsgNative fmt outcome st r).resp = .success "OK" := by
  obtain ⟨r1, cm, rs, hstep, hinv⟩ :=
    pushStep1_ok_of_resolvable fmt outcome st r hres
  obtain ⟨heid, hpj, het, hft⟩ := stamped_fields st r r1 cm rs hinv
  rw [push_eq_finish fmt outcome st r r1 cm rs hstep,
    pushFinish_dup st _ v (by rw [het]; exact hcreate)
      (by rw [heid, hpj]; exact hkey)]
  exact ⟨rfl, rfl⟩

theorem push_recover (fmt : AlertItemRecord → String → String)
    (outcome : MsgChannel → ProviderOutcome) (st : EngineState)
    (r : AlertItemRecord)
    (hres : ∀ rules, getMsgSendRules st r.alertitem_code = some rules →
      ∀ c ∈ rules.msgChannels, ∃ ct, resolveChannelType c = .ok ct)
    (hrec : r.event_type = EVENT_TYPE_RECOVER) :
    (pushAlertMsgNative fmt outcome st r).state.tmpMessages =
      addTmpMessage st.tmpMessages r.event_id r.project true ∧
    (pushAlertMsgNative fmt outcome st r).state.savedLog = st.savedLog ∧
    (pushAlertMsgNative fmt outcome st r).state.msgSendRules =
      st.msgSendRules ∧
    (pushAlertMsgNative fmt outcome st r).resp = .success "OK" := by
  obtain ⟨r1, cm, rs, hstep, hinv⟩ :=
    pushStep1_ok_of_resolvable fmt outcome st r hres
  obtain ⟨heid, hpj, het, hft⟩ := stamped_fields st r r1 cm rs hinv
  rw [push_eq_finish fmt outcome st r r1 cm rs hstep,
    pushFinish_recover st _ (by rw [het]; exact hrec)]
  rw [heid, hpj]
  refine ⟨?_, ?_, ?_, rfl⟩
  · rw [pushResult_mk_state, engineState_mk_tmp]
  · rw [pushResult_mk_state, engineState_mk_log]
  · rw [pushResult_mk_state, engineState_mk_rules]

theorem getMsgSendRules_congr {st1 st : EngineState}
    (h : st1.msgSendRules = st.msgSendRules) (code : String) :
    getMsgSendRules st1 code = getMsgSendRules st code := by
  unfold getMsgSendRules
  rw [h]

theorem pushMany_dup (fmt : AlertItemRecord → String → String)
    (outcome : MsgChannel → ProviderOutcome) (e p : String) (v : Bool) :
    ∀ (qs : List AlertItemRecord) (st : EngineState),
      (∀ q ∈ qs, q.event_id = e ∧ q.project = p ∧
        ¬ q.event_type = EVENT_TYPE_RECOVER ∧
        (∀ rules, getMsgSendRules st q.alertitem_code = some rules →
          ∀ c ∈ rules.msgChannels, ∃ ct, resolveChannelType c = .ok ct)) →
      checkTmpMessage st.tmpMessages e p = some v →
      pushMany fmt outcome st qs = st
  | [], _, _, _ => rfl
  | q :: qs, st, hall, hk => by
    obtain ⟨h1, h2, h3, h4⟩ := hall q (by simp)
    have hstate : (pushAlertMsgNative fmt outcome st q).state = st :=
      (push_dup fmt outcome st q v h4 (by rw [h1, h2]; exact hk) h3).1
    have hstep : pushMany fmt outcome st (q :: qs) =
        pushMany fmt outcome ((pushAlertMsgNative fmt outcome st q).state)
          qs := rfl
    rw [hstep, hstate]
    exact pushMany_dup fmt outcome e p v qs st
      (fun x hx => hall x (by simp [hx])) hk

/-- C1 (amended): within the dedup-cache horizon, a run of create-type
pushes that share one `event_id#project` key — the key fresh in the
cache, every record's forbid type other than "2", channels resolvable —
persists the record exactly once: the first push appends exactly one
entry for the key to the save log and stamps the cache, and every later
push of the run leaves the engine state unchanged, so the save count
grows by exactly one over the whole run. -/
theorem claim_C1 (fmt : AlertItemRecord → String → String)
    (outcome : MsgChannel → ProviderOutcome) (st : EngineState)
    (e p : String) (r0 : AlertItemRecord) (rest : List AlertItemRecord)
    (hall : ∀ q ∈ r0 :: rest, q.event_id = e ∧ q.project = p ∧
      ¬ q.event_type = EVENT_TYPE_RECOVER ∧
      ¬ q.forbidRuleType = some MSG_SEND_FORBID_NOT_SHOWANDSEND ∧
      (∀ rules, getMsgSendRules st q.alertitem_code = some rules →
        ∀ c ∈ rules.msgChannels, ∃ ct, resolveChannelType c = .ok ct))
    (hfirst : checkTmpMessage st.tmpMessages e p = none) :
    savesFor (cacheKey e p) (pushMany fmt outcome st (r0 :: rest)) =
      savesFor (cacheKey e p) st + 1 ∧
    checkTmpMessage
      (pushMany fmt outcome st (r0 :: rest)).tmpMessages e p =
      some false := by
  obtain ⟨h1, h2, h3, h4, h5⟩ := hall r0 (by simp)
  obtain ⟨hlog, htmp, hms, _⟩ := push_create_first fmt outcome st r0 h5
    (by rw [h1, h2]; exact hfirst) h3 h4
  have hchk : checkTmpMessage
      ((pushAlertMsgNative fmt outcome st r0).state).tmpMessages e p =
      some false := by
    rw [htmp, h1, h2]
    exact checkTmp_addTmp_self st.tmpMessages e p false
  have hstep : pushMany fmt outcome st (r0 :: rest) =
      pushMany fmt outcome ((pushAlertMsgNative fmt outcome st r0).state)
        rest := rfl
  have hdup : pushMany fmt outcome
      ((pushAlertMsgNative fmt outcome st r0).state) rest =
      (pushAlertMsgNative fmt outcome st r0).state :=
    pushMany_dup fmt outcome e p false rest _
      (fun q hq => by
        obtain ⟨g1, g2, g3, _, g5⟩ := hall q (by simp [hq])
        exact ⟨g1, g2, g3, fun rules hr c hc =>
          g5 rules
            (by rw [← getMsgSendRules_congr hms q.alertitem_code]; exact hr)
            c hc⟩)
      hchk
  rw [hstep, hdup]
  refine ⟨?_, hchk⟩
  unfold savesFor
  rw [hlog, h1, h2]
  simp

/-- Engine state for the C1 counterexample: no send rules, empty cache,
empty repository. -/
def stC1 : EngineState :=
  { msgSendRules := fun _ => none
    tmpMessages := []
    records := []
    savedLog := [] }

/-- A create record whose ingestion-time forbid type is "2"
(`MSG_SEND_FORBID_NOT_SHOWANDSEND`). -/
def recC1 : AlertItemRecord :=
  { sampleRecord with forbidRuleType := some "2" }

/-- C1 counterexample: a first-sight create push whose record carries
forbid type "2" stamps the DedupCache and answers the success envelope,
yet `save_record` is never reached — the save count for its key stays
0, against the claimed unconditional "first sight → persist + stamp". -/
theorem claim_C1_counterexample :
    checkTmpMessage stC1.tmpMessages recC1.event_id recC1.project = none ∧
    ¬ recC1.event_type = EVENT_TYPE_RECOVER ∧
    checkTmpMessage
      (pushAlertMsgNative fmtW outcomeW stC1 recC1).state.tmpMessages
      recC1.event_id recC1.project = some false ∧
    savesFor (cacheKey recC1.event_id recC1.project)
      (pushAlertMsgNative fmtW outcomeW stC1 recC1).state = 0 ∧
    (pushAlertMsgNative fmtW outcomeW stC1 recC1).resp = .success "OK" :=
  ⟨rfl, by decide, rfl, rfl, rfl⟩

/-- Every rule set that `stW` hands out resolves all of its channels. -/
theorem stW_resolvable (code : String) :
    ∀ rules, getMsgSendRules stW code = some rules →
      ∀ c ∈ rules.msgChannels, ∃ ct, resolveChannelType c = .ok ct := by
  intro rules hr c hc
  simp only [getMsgSendRules, stW] at hr
  split at hr
  · cases Option.some.inj hr
    simp only [rulesW, List.mem_cons, List.not_mem_nil, or_false] at hc
    rcases hc with rfl | rfl
    · exact ⟨.MAIL, rfl⟩
    · exact ⟨.MAIL, rfl⟩
  · exact Option.noConfusion hr

theorem claim_C1_witness :
    savesFor (cacheKey "E1" "DEMO")
      (pushMany fmtW outcomeW stW [sampleRecord, sampleRecord]) =
      savesFor (cacheKey "E1" "DEMO") stW + 1 ∧
    checkTmpMessage
      (pushMany fmtW outcomeW stW [sampleRecord, sampleRecord]).tmpMessages
      "E1" "DEMO" = some false :=
  claim_C1 fmtW outcomeW stW "E1" "DEMO" sampleRecord [sampleRecord]
    (by
      intro q hq
      simp only [List.mem_cons, List.not_mem_nil, or_false] at hq
      rcases hq with rfl | rfl <;>
        exact ⟨rfl, rfl, by decide, by decide, stW_resolvable _⟩)
    rfl

/-- The recover-typed twin of `sampleRecord`. -/
def rrW : AlertItemRecord :=
  { sampleRecord with event_type := EVENT_TYPE_RECOVER }

/-- C10: a recover push that arrives before any create push for its
`event_id#project` key finds nothing to recover — the repository
reports zero affected rows — yet it stamps the DedupCache with `true`;
from then on (within the cache horizon) every create push for the same
key answers the success envelope while leaving the engine state
unchanged, so the record is never persisted via `save_record`. -/
theorem claim_C10 (fmt : AlertItemRecord → String → String)
    (outcome : MsgChannel → ProviderOutcome) (st : EngineState)
    (e p : String) (rr : AlertItemRecord) (rest : List AlertItemRecord)
    (hrr : rr.event_id = e ∧ rr.project = p ∧
      rr.event_type = EVENT_TYPE_RECOVER ∧
      (∀ rules, getMsgSendRules st rr.alertitem_code = some rules →
        ∀ c ∈ rules.msgChannels, ∃ ct, resolveChannelType c = .ok ct))
    (hmiss : ∀ s ∈ st.records,
      ¬ s.alertitem_record_id = rr.alertitem_record_id)
    (hall : ∀ q ∈ rest, q.event_id = e ∧ q.project = p ∧
      ¬ q.event_type = EVENT_TYPE_RECOVER ∧
      (∀ rules, getMsgSendRules st q.alertitem_code = some rules →
        ∀ c ∈ rules.msgChannels, ∃ ct, resolveChannelType c = .ok ct)) :
    (markRecovered st.records rr).2 = 0 ∧
    checkTmpMessage
      (pushAlertMsgNative fmt outcome st rr).state.tmpMessages e p =
      some true ∧
    (∀ q ∈ rest,
      (pushAlertMsgNative fmt outcome
          (pushAlertMsgNative fmt outcome st rr).state q).state =
        (pushAlertMsgNative fmt outcome st rr).state ∧
      (pushAlertMsgNative fmt outcome
          (pushAlertMsgNative fmt outcome st rr).state q).resp =
        .success "OK") ∧
    savesFor (cacheKey e p)
      (pushMany fmt outcome (pushAlertMsgNative fmt outcome st rr).state
        rest) = savesFor (cacheKey e p) st := by
  obtain ⟨h1, h2, h3, h4⟩ := hrr
  obtain ⟨htmp, hlog, hms, _⟩ := push_recover fmt outcome st rr h4 h3
  have hany : ¬ st.records.any
      (fun s => s.alertitem_record_id = rr.alertitem_record_id) = true := by
    simp only [List.any_eq_true]
    rintro ⟨s, hs, hq⟩
    exact hmiss s hs (by simpa using hq)
  have hchk : checkTmpMessage
      ((pushAlertMsgNative fmt outcome st rr).state).tmpMessages e p =
      some true := by
    rw [htmp, h1, h2]
    exact checkTmp_addTmp_self st.tmpMessages e p true
  have hdropall : ∀ q ∈ rest,
      (pushAlertMsgNative fmt outcome
          (pushAlertMsgNative fmt outcome st rr).state q).state =
        (pushAlertMsgNative fmt outcome st rr).state ∧
      (pushAlertMsgNative fmt outcome
          (pushAlertMsgNative fmt outcome st rr).state q).resp =
        .success "OK" := by
    intro q hq
    obtain ⟨g1, g2, g3, g4⟩ := hall q hq
    exact push_dup fmt outcome _ q true
      (fun rules hr c hc =>
        g4 rules
          (by rw [← getMsgSendRules_congr hms q.alertitem_code]; exact hr)
          c hc)
      (by rw [g1, g2]; exact hchk) g3
  refine ⟨?_, hchk, hdropall, ?_⟩
  · unfold markRecovered
    rw [if_neg hany]
  · rw [pushMany_dup fmt outcome e p true rest _
      (fun q hq => by
        obtain ⟨g1, g2, g3, g4⟩ := hall q hq
        exact ⟨g1, g2, g3, fun rules hr c hc =>
          g4 rules
            (by rw [← getMsgSendRules_congr hms q.alertitem_code]; exact hr)
            c hc⟩)
      hchk]
    unfold savesFor
    rw [hlog]

theorem claim_C10_witness :
    (markRecovered stW.records rrW).2 = 0 ∧
    checkTmpMessage
      (pushAlertMsgNative fmtW outcomeW stW rrW).state.tmpMessages
      "E1" "DEMO" = some true ∧
    (pushAlertMsgNative fmtW outcomeW
        (pushAlertMsgNative fmtW outcomeW stW rrW).state
        sampleRecord).state =
      (pushAlertMsgNative fmtW outcomeW stW rrW).state ∧
    (pushAlertMsgNative fmtW outcomeW
        (pushAlertMsgNative fmtW outcomeW stW rrW).state
        sampleRecord).resp = .success "OK" ∧
    savesFor (cacheKey "E1" "DEMO")
      (pushMany fmtW outcomeW
        (pushAlertMsgNative fmtW outcomeW stW rrW).state [sampleRecord]) =
      savesFor (cacheKey "E1" "DEMO") stW := by
  obtain ⟨w1, w2, w3, w4⟩ :=
    claim_C10 fmtW outcomeW stW "E1" "DEMO" rrW [sampleRecord]
      ⟨rfl, rfl, rfl, stW_resolvable _⟩
      (by simp [stW])
      (by
        intro q hq
        simp only [List.mem_singleton] at hq
        subst hq
        exact ⟨rfl, rfl, by decide, stW_resolvable _⟩)
  exact ⟨w1, w2, (w3 sampleRecord (by simp)).1,
    (w3 sampleRecord (by simp)).2, w4⟩

end OmnisPartner
